import Mathlib

/-!
# ONVIF PTZ client for the TP-Link TC70 (`TC70Control`)

A shallow embedding of `src/src/TC70Control.cpp` / `TC70Control.h`.

Conventions of the embedding

* An Arduino `String` / `std::string` / `const char *` is a Lean `String`.  Its bytes are the
  UTF-8 bytes of the Lean string; `WString.length` is the byte count that `String::length()`
  reports.  XML text never holds a NUL character, so the conversions through `c_str()` between
  the string types are the identity on the strings that occur.
* Code whose behaviour is undefined in C++ (a write past the end of a local array, a call through
  a null pointer, a null `const char *` handed to `sscanf` or to the `std::string` constructor)
  yields `none`; every defined run yields `some` result.
* The libraries the program links against (tinyxml2's parser and number reader, mbedtls, the HTTP
  client, the clock and `random()`) are not part of the repository.  They are parameters:
  `Platform` holds the pure library functions, `Ambient` what one call reads from its surroundings.
-/

namespace TC70

/-! ## Bytes and Arduino strings -/

/-- One `uint8_t`. -/
abbrev Byte := Fin 256

/-- The cast `(uint8_t) v`. -/
def toUInt8 (v : Nat) : Byte := ⟨v % 256, Nat.mod_lt _ (by decide)⟩

namespace WString

/-- The bytes an Arduino `String` stores, without the terminating NUL. -/
def bytes (s : String) : List Byte :=
  (s.data.flatMap String.utf8EncodeChar).map (fun b => toUInt8 b.toNat)

/-- The member `String::length()`: the number of stored bytes. -/
def length (s : String) : Nat := (bytes s).length

/-- The member `String::c_str()`: the stored bytes followed by the terminating NUL. -/
def c_str (s : String) : List Byte := bytes s ++ [0]

/-- The member `String::isEmpty()`. -/
def isEmpty (s : String) : Bool := length s == 0

end WString

/-! ## Constants of `TC70Control.h` -/

def ONVIF_PORT : Nat := 2020

/-- SHA-1 must return 20 bytes result. -/
def SHA1_LENGTH : Nat := 20

def NONCE_LENGTH : Nat := 16

/-- The constant `HTTP_CODE_OK` of the HTTP client library. -/
def HTTP_CODE_OK : Int := 200

/-! ## The XML document tree produced by tinyxml2 -/

/-- A node of a parsed document: an element with its attributes (in document order) and its
child nodes, a text node, or any other node (comment, declaration, unknown). -/
inductive XMLNode where
  | element (name : String) (attributes : List (String × String)) (children : List XMLNode)
  | text (value : String)
  | other (value : String)

/-- A parsed document: the list of its top-level nodes. -/
structure XMLDocument where
  children : List XMLNode

/-- The child nodes of a node; only elements have any. -/
def XMLNode.children : XMLNode → List XMLNode
  | .element _ _ cs => cs
  | _ => []

/-- Whether a node is an element with the given name (`ToElement()` and `StrEqual` on `Name()`). -/
def XMLNode.isElementNamed (name : String) : XMLNode → Bool
  | .element nm _ _ => nm == name
  | _ => false

/-- The search of `XMLNode::FirstChildElement(name)` over a list of child nodes: the first child
that is an element with that name, `none` for the null pointer. -/
def firstChildElement (cs : List XMLNode) (name : String) : Option XMLNode :=
  cs.find? (XMLNode.isElementNamed name)

/-- The call `doc.FirstChildElement(name)`. -/
def XMLDocument.FirstChildElement (doc : XMLDocument) (name : String) : Option XMLNode :=
  firstChildElement doc.children name

/-- The call `e->FirstChildElement(name)` on a non-null element. -/
def XMLNode.FirstChildElement (e : XMLNode) (name : String) : Option XMLNode :=
  firstChildElement e.children name

/-- The call `e->GetText()`: the value of the first child when that child is a text node,
`none` for the null pointer otherwise. -/
def XMLNode.GetText (e : XMLNode) : Option String :=
  match e.children with
  | .text v :: _ => some v
  | _ => none

/-- The call `e->Attribute(name)`: the value of the first attribute with that name, `none` for
the null pointer. -/
def XMLNode.Attribute (e : XMLNode) (name : String) : Option String :=
  match e with
  | .element _ attrs _ => (attrs.find? (fun a => a.1 == name)).map (fun a => a.2)
  | _ => none

/-! ## The libraries and the surroundings of a call -/

/-- The pure library functions the program is linked against; `F` is the type `float`. -/
structure Platform (F : Type) where
  /-- The call `XMLDocument::Parse`: `none` for every error code other than `XML_SUCCESS`. -/
  Parse : String → Option XMLDocument
  /-- The call `XMLUtil::ToFloat` on a non-null text: the number read by `sscanf("%f")`, `none`
  when nothing was read (the target variable is then left as it was). -/
  ToFloat : String → Option F
  /-- The Arduino conversion `String(float)`. -/
  StringOfFloat : F → String
  /-- The call `mbedtls_md` with the SHA-1 descriptor on a message: its return code and the
  content of the 20-byte output buffer afterwards. -/
  mbedtls_md : List Byte → Int × List Byte
  /-- The output buffer of `mbedtls_md` holds `SHA1_LENGTH` bytes. -/
  md_size : ∀ m, (mbedtls_md m).2.length = SHA1_LENGTH

/-- The digest function computed by the hash primitive of the platform. -/
def Platform.SHA1 {F : Type} (P : Platform F) (m : List Byte) : List Byte := (P.mbedtls_md m).2

/-- What one call of `GenerateSecurityParameters` reads from its surroundings. -/
structure Ambient where
  /-- The value returned by the `i`-th call of `random()` counted from now. -/
  random : Nat → Nat
  /-- The text `strftime` leaves in `buf` for the current local time, format
  `%Y-%m-%dT%H:%M:%S%z`. -/
  strftime : String
  /-- The text fits the array `char buf[64]` it is written to, terminating NUL included. -/
  strftime_size : WString.length strftime < 64
  /-- The indeterminate initial content of the local array `nonce_created_password_buf`. -/
  stack : Nat → Byte

/-! ## WS-Security digest generation -/

/-- The function `GenerateNonce` of the anonymous namespace. -/
def GenerateNonce (w : Ambient) : List Byte :=
  (List.range NONCE_LENGTH).map (fun i => toUInt8 (w.random i))

/-- The call `memcpy(buf + dst, src, n)` into the array `buf`: `none` when it would write past
the end of `buf` or read past the end of `src`. -/
def memcpy (buf : List Byte) (dst : Nat) (src : List Byte) (n : Nat) : Option (List Byte) :=
  if dst + n ≤ buf.length ∧ n ≤ src.length then
    some (buf.take dst ++ src.take n ++ buf.drop (dst + n))
  else
    none

/-- The function `calcSHA1(ibuf, ilen, obuf)`: the returned flag and the content of `obuf`;
`none` when it would read past the end of `ibuf`. -/
def calcSHA1 {F : Type} (P : Platform F) (ibuf : List Byte) (ilen : Nat) :
    Option (Bool × List Byte) :=
  if ilen ≤ ibuf.length then
    let r := P.mbedtls_md (ibuf.take ilen)
    some (r.1 == (SHA1_LENGTH : Int), r.2)
  else
    none

/-- The record `TC70Control::SecurityParameters`. -/
structure SecurityParameters where
  /-- ISO-8601 formatted time -/
  created : String
  nonce : List Byte
  password_digest : List Byte

/-- The member `TC70Control::GenerateSecurityParameters`. -/
def GenerateSecurityParameters {F : Type} (P : Platform F) (w : Ambient)
    (plain_password : String) : Option SecurityParameters := do
  let created := w.strftime
  let nonce := GenerateNonce w
  let sp_nonce := nonce.take NONCE_LENGTH
  let nonce_created_password_buf := (List.range 128).map w.stack
  let dst1 := 0
  let dst2 := NONCE_LENGTH
  let dst3 := NONCE_LENGTH + WString.length created
  let buf1 ← memcpy nonce_created_password_buf dst1 nonce NONCE_LENGTH
  let buf2 ← memcpy buf1 dst2 (WString.c_str created) (WString.length created)
  let buf3 ← memcpy buf2 dst3 (WString.c_str plain_password) (WString.length plain_password)
  let length := NONCE_LENGTH + WString.length created + WString.length plain_password
  let r ← calcSHA1 P buf3 length
  pure { created := created, nonce := sp_nonce, password_digest := r.2 }

/-! ## Base64 as written by `base64_encode_chars` (libb64)

The encoder of the Arduino core is not part of the repository.  It is the RFC 4648 alphabet with
`=` padding; the two calls of the program encode 16 and 20 bytes, below the length at which the
library would start a new output line. -/

/-- The table `encoding` of libb64. -/
def base64_alphabet : List Char :=
  "ABCDEFGHIJKLMNOPQRSTUVWXYZabcdefghijklmnopqrstuvwxyz0123456789+/".data

/-- The function `base64_encode_value`. -/
def base64_encode_value (value_in : Nat) : Char :=
  if value_in > 63 then '=' else base64_alphabet.getD value_in '='

/-- The characters written by `base64_encode_block` and `base64_encode_blockend` together. -/
def base64_encode_block : List Byte → List Char
  | a :: b :: c :: rest =>
      base64_encode_value (a.val / 4) ::
      base64_encode_value (a.val % 4 * 16 + b.val / 16) ::
      base64_encode_value (b.val % 16 * 4 + c.val / 64) ::
      base64_encode_value (c.val % 64) :: base64_encode_block rest
  | [a, b] =>
      [base64_encode_value (a.val / 4), base64_encode_value (a.val % 4 * 16 + b.val / 16),
       base64_encode_value (b.val % 16 * 4), '=']
  | [a] =>
      [base64_encode_value (a.val / 4), base64_encode_value (a.val % 4 * 16), '=', '=']
  | [] => []

/-- The call `base64_encode_chars(plaintext_in, length_in, code_out)` followed by
`String(code_out)`. -/
def base64_encode_chars (plaintext_in : List Byte) (length_in : Nat) : String :=
  String.mk (base64_encode_block (plaintext_in.take length_in))

def XMLDeclaration : String := "<?xml version=\"1.0\" encoding=\"UTF-8\"?>"

/-- The member `TC70Control::PackSoapEnvelope`. -/
def PackSoapEnvelope (header body : String) : String :=
  "<soapenv:Envelope xmlns:soapenv=\"http://www.w3.org/2003/05/soap-envelope\">" ++
  "<soapenv:Header>" ++
  header ++
  "</soapenv:Header>" ++
  "<soapenv:Body>" ++
  body ++
  "</soapenv:Body>" ++
  "</soapenv:Envelope>"

/-- The member `TC70Control::PackWebServiceSecurity`.  The two local arrays `nonce_b64` and
`password_digest_b64` hold 64 characters, more than the 25 and 29 the encoder writes. -/
def PackWebServiceSecurity {F : Type} (P : Platform F) (w : Ambient)
    (username password : String) : Option String := do
  let sp ← GenerateSecurityParameters P w password
  let nonce_b64 := base64_encode_chars sp.nonce NONCE_LENGTH
  let password_digest_b64 := base64_encode_chars sp.password_digest SHA1_LENGTH
  pure (
    "<wss:Security xmlns:wss=\"http://docs.oasis-open.org/wss/2004/01/oasis-200401-wss-wssecurity-secext-1.0.xsd\">" ++
    "<wss:UsernameToken>" ++
    "<wss:Username>" ++
    username ++
    "</wss:Username>" ++
    "<wss:Password Type=\"http://docs.oasis-open.org/wss/2004/01/oasis-200401-wss-username-token-profile-1.0#PasswordDigest\">" ++
    password_digest_b64 ++
    "</wss:Password>" ++
    "<wss:Nonce EncodingType=\"http://docs.oasis-open.org/wss/2004/01/oasis-200401-wss-soap-message-security-1.0#Base64Binary\">" ++
    nonce_b64 ++
    "</wss:Nonce>" ++
    "<wsu:Created xmlns:wsu=\"http://docs.oasis-open.org/wss/2004/01/oasis-200401-wss-wssecurity-utility-1.0.xsd\">" ++
    sp.created ++
    "</wsu:Created>" ++
    "</wss:UsernameToken>" ++
    "</wss:Security>")

/-- The member `TC70Control::PackGetCapabitlities`. -/
def PackGetCapabitlities : String :=
  "<GetCapabilities xmlns=\"http://www.onvif.org/ver10/device/wsdl\">" ++
  "<Category>" ++
  "All" ++
  "</Category>" ++
  "</GetCapabilities>"

/-- The member `TC70Control::PackAbsoluteMove`. -/
def PackAbsoluteMove {F : Type} (P : Platform F) (proftoken : String) (pan tilt vx vy : F) :
    String :=
  let position := " x=\"" ++ P.StringOfFloat pan ++ "\" y=\"" ++ P.StringOfFloat tilt ++ "\" "
  let velocity := " x=\"" ++ P.StringOfFloat vx ++ "\" y=\"" ++ P.StringOfFloat vy ++ "\" "
  "<AbsoluteMove xmlns=\"http://www.onvif.org/ver20/ptz/wsdl\">" ++
  "<ProfileToken>" ++
  proftoken ++
  "</ProfileToken>" ++
  "<Position>" ++
  "<PanTilt xmlns=\"http://www.onvif.org/ver10/schema\" space=\"http://www.onvif.org/ver10/tptz/PanTiltSpaces/PositionGenericSpace\"" ++
  position ++
  "/>" ++
  "</Position>" ++
  "<Speed>" ++
  "<PanTilt xmlns=\"http://www.onvif.org/ver10/schema\" space=\"http://www.onvif.org/ver10/tptz/PanTiltSpaces/GenericSpeedSpace\"" ++
  velocity ++
  "/>" ++
  "</Speed>" ++
  "</AbsoluteMove>"

/-- The member `TC70Control::PackGetProfiles`. -/
def PackGetProfiles : String :=
  "<ns0:GetProfiles xmlns:ns0=\"http://www.onvif.org/ver10/media/wsdl\"/>"

/-- The member `TC70Control::PackGetConfigurationOptions`. -/
def PackGetConfigurationOptions (ptztoken : String) : String :=
  "<ns0:GetConfigurationOptions xmlns:ns0=\"http://www.onvif.org/ver20/ptz/wsdl\">" ++
  "<ns0:ConfigurationToken>" ++
  ptztoken ++
  "</ns0:ConfigurationToken>" ++
  "</ns0:GetConfigurationOptions>"

/-- The member `TC70Control::PackGetStatus`. -/
def PackGetStatus (proftoken : String) : String :=
  "<ns0:GetStatus xmlns:ns0=\"http://www.onvif.org/ver20/ptz/wsdl\">" ++
  "<ns0:ProfileToken>" ++
  proftoken ++
  "</ns0:ProfileToken>" ++
  "</ns0:GetStatus>"

/-! ## The HTTP round trip and the five ONVIF commands -/

/-- An `IPAddress`: its four octets. -/
structure IPAddress where
  a : Nat
  b : Nat
  c : Nat
  d : Nat

/-- The member `IPAddress::toString()`. -/
def IPAddress.toString (ip : IPAddress) : String :=
  Nat.repr ip.a ++ "." ++ Nat.repr ip.b ++ "." ++ Nat.repr ip.c ++ "." ++ Nat.repr ip.d

/-- What `Request` hands to the HTTP client: `begin(host, port, uri)`, the one header it adds and
the payload of `POST`. -/
structure HttpRequest where
  host : String
  port : Nat
  uri : String
  contentType : String
  payload : String

/-- What the HTTP client reports: the value returned by `POST` (an HTTP status, or a negative
client error) and the text `getString()` returns. -/
structure HttpResponse where
  status : Int
  body : String

/-- The transport: the outcome of each possible POST. -/
abbrev Transport := HttpRequest → HttpResponse

/-- The data members of the class `TC70Control`, set by its constructor. -/
structure TC70Control where
  m_tc70 : IPAddress
  m_username : String
  m_password : String

/-- The request that `Request` sets up with `http.begin`, `http.addHeader` and `http.POST`. -/
def TC70Control.httpRequest (self : TC70Control) (uri payload : String) : HttpRequest :=
  { host := self.m_tc70.toString, port := ONVIF_PORT, uri := uri,
    contentType := "application/soap+xml; charset=utf-8;", payload := payload }

/-- The member `TC70Control::Request`. -/
def Request (self : TC70Control) (http : Transport) (uri payload : String) : String :=
  let r := http (self.httpRequest uri payload)
  let status := r.status
  if status ≠ HTTP_CODE_OK then
    ""
  else
    let response := r.body
    response

/-- The member `TC70Control::GetCapabilities`. -/
def GetCapabilities {F : Type} (self : TC70Control) (P : Platform F) (w : Ambient)
    (http : Transport) (uri : String) : Option String := do
  let soap_header ← PackWebServiceSecurity P w self.m_username self.m_password
  let soap_body := PackGetCapabitlities
  let payload := XMLDeclaration ++ PackSoapEnvelope soap_header soap_body
  pure (Request self http uri payload)

/-- The member `TC70Control::GetProfiles`. -/
def GetProfiles {F : Type} (self : TC70Control) (P : Platform F) (w : Ambient)
    (http : Transport) (uri : String) : Option String := do
  let soap_header ← PackWebServiceSecurity P w self.m_username self.m_password
  let soap_body := PackGetProfiles
  let payload := XMLDeclaration ++ PackSoapEnvelope soap_header soap_body
  pure (Request self http uri payload)

/-- The member `TC70Control::GetConfigurationOptions`. -/
def GetConfigurationOptions {F : Type} (self : TC70Control) (P : Platform F) (w : Ambient)
    (http : Transport) (uri token : String) : Option String := do
  let soap_header ← PackWebServiceSecurity P w self.m_username self.m_password
  let soap_body := PackGetConfigurationOptions token
  let payload := XMLDeclaration ++ PackSoapEnvelope soap_header soap_body
  pure (Request self http uri payload)

/-- The member `TC70Control::GetStatus`. -/
def GetStatus {F : Type} (self : TC70Control) (P : Platform F) (w : Ambient)
    (http : Transport) (uri profile : String) : Option String := do
  let soap_header ← PackWebServiceSecurity P w self.m_username self.m_password
  let soap_body := PackGetStatus profile
  let payload := XMLDeclaration ++ PackSoapEnvelope soap_header soap_body
  pure (Request self http uri payload)

/-- The member `TC70Control::AbsoluteMove`. -/
def AbsoluteMove {F : Type} (self : TC70Control) (P : Platform F) (w : Ambient)
    (http : Transport) (uri profile : String) (pan tilt vx vy : F) : Option String := do
  let soap_header ← PackWebServiceSecurity P w self.m_username self.m_password
  let soap_body := PackAbsoluteMove P profile pan tilt vx vy
  let payload := XMLDeclaration ++ PackSoapEnvelope soap_header soap_body
  pure (Request self http uri payload)

/-! ## The regular expression of `ExtractUris`

The pattern is the ECMAScript expression `http://(.*?)/(.*)`, applied with `std::regex_match`
(the whole text must match).  The matcher below is the backtracking search of that one pattern:
`.` takes any character but a line terminator, the lazy group is tried at its shortest first and
grows by one character each time the rest of the pattern fails. -/

/-- The characters `.` does not match. -/
def isLineTerminator (c : Char) : Bool := c == '\n' || c == '\r'

/-- The literal part `http://` of the pattern: what follows it in the text, `none` when the text
does not start with it. -/
def matchLiteral : List Char → List Char → Option (List Char)
  | [], text => some text
  | _ :: _, [] => none
  | p :: ps, c :: cs => if p = c then matchLiteral ps cs else none

/-- The part `/(.*)` of the pattern against everything that is left: the second group. -/
def matchSlashGreedy : List Char → Option (List Char)
  | [] => none
  | c :: rest => if c = '/' ∧ rest.all (fun x => !isLineTerminator x) then some rest else none

/-- The part `(.*?)/(.*)` of the pattern: `group1` is what the lazy group holds so far. -/
def matchLazy (group1 : List Char) : List Char → Option (List Char × List Char)
  | [] => none
  | c :: rest =>
      match matchSlashGreedy (c :: rest) with
      | some group2 => some (group1, group2)
      | none => if isLineTerminator c then none else matchLazy (group1 ++ [c]) rest

/-- The call `std::regex_match(fullpath, match, std::regex("http://(.*?)/(.*)"))`: the two
groups `match[1]` and `match[2]` when the text matches (`match.size() == 3`), `none` when it does
not (`match.size() == 0`). -/
def regex_match (fullpath : String) : Option (String × String) :=
  match matchLiteral "http://".data fullpath.data with
  | none => none
  | some rest =>
      match matchLazy [] rest with
      | none => none
      | some (group1, group2) => some (String.mk group1, String.mk group2)

/-! ## Extract functions -/

/-- The record `TC70Control::UriList`. -/
structure UriList where
  media : String := ""
  ptz : String := ""
  events : String := ""

/-- The record `TC70Control::Profile`. -/
structure Profile where
  proftoken : String := ""
  ptztoken : String := ""

/-- The record `TC70Control::PTSpace`. -/
structure PTSpace (F : Type) [Zero F] where
  PanMin : F := 0
  PanMax : F := 0
  TiltMin : F := 0
  TiltMax : F := 0
  SpeedMin : F := 0
  SpeedMax : F := 0

/-- The record `TC70Control::PTPosition`. -/
structure PTPosition (F : Type) [Zero F] where
  pan : F := 0
  tilt : F := 0

/-- The assignment of a `const char *` to an Arduino `String`: a null pointer leaves the string
empty. -/
def WString.ofCStr (cstr : Option String) : String :=
  match cstr with
  | some s => s
  | none => ""

/-- The call `tinyxml2::XMLUtil::ToFloat(str, &value)` on a possibly null `str`: the new content of
`value`; `none` when `str` is null, which `sscanf` must not be given. -/
def ToFloat {F : Type} (P : Platform F) (str : Option String) (value : F) : Option F :=
  match str with
  | none => none
  | some s =>
      match P.ToFloat s with
      | some v => some v
      | none => some value

/-- The chain `first->FirstChildElement(n1)->FirstChildElement(n2)->...` below an element `e`: the
element the last call returns, `none` when one of the calls returns the null pointer. -/
def XMLNode.descend (e : XMLNode) : List String → Option XMLNode
  | [] => some e
  | name :: names => (e.FirstChildElement name).bind (fun c => XMLNode.descend c names)

/-- The chain `doc.FirstChildElement(n1)->FirstChildElement(n2)->...`: the element the last call
returns, `none` when one of the calls returns the null pointer.  Every pointer such a chain
yields is dereferenced by the code that follows it, so a null pointer anywhere in the chain,
its end included, is a null-pointer dereference. -/
def XMLDocument.descend (doc : XMLDocument) : List String → Option XMLNode
  | [] => none
  | name :: names => (doc.FirstChildElement name).bind (fun c => XMLNode.descend c names)

/-- The statements `std::regex_match(fullpath, match, ...); if(match.size() == 3){ field =
String(match[2].str().c_str()); }`: the new content of `field`. -/
def assignPath (field fullpath : String) : String :=
  match regex_match fullpath with
  | some m => m.2
  | none => field

/-- The first block of `ExtractUris`, which sets `uris.media`. -/
def ExtractUris.media (doc : XMLDocument) (uris : UriList) : Option UriList := do
  let xaddr ← doc.descend ["SOAP-ENV:Envelope", "SOAP-ENV:Body", "tds:GetCapabilitiesResponse",
    "tds:Capabilities", "tt:Media", "tt:XAddr"]
  let fullpath ← xaddr.GetText
  pure { uris with media := assignPath uris.media fullpath }

/-- The second block of `ExtractUris`, which sets `uris.events`. -/
def ExtractUris.events (doc : XMLDocument) (uris : UriList) : Option UriList := do
  let xaddr ← doc.descend ["SOAP-ENV:Envelope", "SOAP-ENV:Body", "tds:GetCapabilitiesResponse",
    "tds:Capabilities", "tt:Events", "tt:XAddr"]
  let fullpath ← xaddr.GetText
  pure { uris with events := assignPath uris.events fullpath }

/-- The third block of `ExtractUris`, which sets `uris.ptz`. -/
def ExtractUris.ptz (doc : XMLDocument) (uris : UriList) : Option UriList := do
  let xaddr ← doc.descend ["SOAP-ENV:Envelope", "SOAP-ENV:Body", "tds:GetCapabilitiesResponse",
    "tds:Capabilities", "tt:PTZ", "tt:XAddr"]
  let fullpath ← xaddr.GetText
  pure { uris with ptz := assignPath uris.ptz fullpath }

/-- The member `TC70Control::ExtractUris`. -/
def ExtractUris {F : Type} (P : Platform F) (capabilities : String) : Option UriList :=
  match P.Parse capabilities with
  | none => some {}
  | some doc => do
    let uris : UriList := {}
    let uris ← ExtractUris.media doc uris
    let uris ← ExtractUris.events doc uris
    let uris ← ExtractUris.ptz doc uris
    pure uris

/-- The member `TC70Control::ExtractFirstProfile`. -/
def ExtractFirstProfile {F : Type} (P : Platform F) (profiles : String) : Option Profile :=
  match P.Parse profiles with
  | none => some {}
  | some doc => do
    let doc_profile ← doc.descend ["SOAP-ENV:Envelope", "SOAP-ENV:Body",
      "trt:GetProfilesResponse", "trt:Profiles"]
    let prof : Profile := {}
    let prof := { prof with proftoken := WString.ofCStr (doc_profile.Attribute "token") }
    let ptz ← doc_profile.FirstChildElement "tt:PTZConfiguration"
    let prof := { prof with ptztoken := WString.ofCStr (ptz.Attribute "token") }
    pure prof

/-- The call `ToFloat(space->FirstChildElement(range)->FirstChildElement(bound)->GetText(),
&value)` of `ExtractAbsolutePTSpace`: the new content of `value`. -/
def readBound {F : Type} (P : Platform F) (space : XMLNode) (range bound : String) (value : F) :
    Option F := do
  let e ← space.descend [range, bound]
  ToFloat P e.GetText value

/-- The member `TC70Control::ExtractAbsolutePTSpace`. -/
def ExtractAbsolutePTSpace {F : Type} [Zero F] (P : Platform F)
    (configuration_options : String) : Option (PTSpace F) :=
  match P.Parse configuration_options with
  | none => some {}
  | some doc => do
    let doc_space ← doc.descend ["SOAP-ENV:Envelope", "SOAP-ENV:Body",
      "tptz:GetConfigurationOptionsResponse", "tptz:PTZConfigurationOptions", "tt:Spaces"]
    let abs_space ← doc_space.FirstChildElement "tt:AbsolutePanTiltPositionSpace"
    let spd_space := doc_space.FirstChildElement "tt:PanTiltSpeedSpace"
    let pt : PTSpace F := {}
    let PanMin ← readBound P abs_space "tt:XRange" "tt:Min" pt.PanMin
    let PanMax ← readBound P abs_space "tt:XRange" "tt:Max" pt.PanMax
    let TiltMin ← readBound P abs_space "tt:YRange" "tt:Min" pt.TiltMin
    let TiltMax ← readBound P abs_space "tt:YRange" "tt:Max" pt.TiltMax
    let spd_space ← spd_space
    let SpeedMin ← readBound P spd_space "tt:XRange" "tt:Min" pt.SpeedMin
    let SpeedMax ← readBound P spd_space "tt:XRange" "tt:Max" pt.SpeedMax
    pure { PanMin := PanMin, PanMax := PanMax, TiltMin := TiltMin, TiltMax := TiltMax,
           SpeedMin := SpeedMin, SpeedMax := SpeedMax }

/-- The member `TC70Control::ExtractAbsolutePosition`. -/
def ExtractAbsolutePosition {F : Type} [Zero F] (P : Platform F) (status : String) :
    Option (PTPosition F) :=
  match P.Parse status with
  | none => some {}
  | some doc => do
    let doc_pt ← doc.descend ["SOAP-ENV:Envelope", "SOAP-ENV:Body", "tptz:GetStatusResponse",
      "tptz:PTZStatus", "tt:Position", "tt:PanTilt"]
    let pt : PTPosition F := {}
    let pan ← ToFloat P (doc_pt.Attribute "x") pt.pan
    let tilt ← ToFloat P (doc_pt.Attribute "y") pt.tilt
    pure { pan := pan, tilt := tilt }

/-! ## The sketch `main.cpp`

`float` is the parameter `F`.  The members of `Posture` ask of it only the comparisons, the
operations and the constants they use, so that they can be run in exact arithmetic (an ordered
field) and in the arithmetic of the ESP32 (`Binary32` below); `getRotationValue` and what calls
it are taken in exact arithmetic.  A `while` loop is run with a bound on the number of its
iterations (`fuel`); it yields `none` when the bound is reached before the loop ends. -/

/-- The constant `TC70Control::PanRange_deg`. -/
def PanRange_deg {F : Type} [LinearOrderedField F] : F := 360

/-- The constant `TC70Control::TiltRange_deg`. -/
def TiltRange_deg {F : Type} [LinearOrderedField F] : F := 114

def tc70_ipaddr : IPAddress := { a := 192, b := 168, c := 1, d := 63 }

def tc70_username : String := "tc70_username"

def tc70_password : String := "tc70_password"

/-- The global `tc70control`. -/
def tc70control : TC70Control :=
  { m_tc70 := tc70_ipaddr, m_username := tc70_username, m_password := tc70_password }

/-- The record `Posture`: roll, pitch and yaw of the AtomS3. -/
structure Posture (F : Type) where
  roll_deg : F
  pitch_deg : F
  yaw_deg : F

namespace Posture

/-- The loop `while(deg >= 180){ deg -= 360; }`. -/
def normalize.loop1 {F : Type} [LE F] [DecidableRel (α := F) (· ≤ ·)] [Sub F] [OfNat F 180]
    [OfNat F 360] : Nat → F → Option F
  | 0, _ => none
  | fuel + 1, deg => if deg ≥ 180 then normalize.loop1 fuel (deg - 360) else some deg

/-- The loop `while(deg < -180){ deg += 360; }`. -/
def normalize.loop2 {F : Type} [LT F] [DecidableRel (α := F) (· < ·)] [Add F] [Neg F]
    [OfNat F 180] [OfNat F 360] : Nat → F → Option F
  | 0, _ => none
  | fuel + 1, deg => if deg < -180 then normalize.loop2 fuel (deg + 360) else some deg

/-- The member `Posture::normalize`. -/
def normalize {F : Type} [LE F] [DecidableRel (α := F) (· ≤ ·)] [LT F]
    [DecidableRel (α := F) (· < ·)] [Sub F] [Add F] [Neg F] [OfNat F 180] [OfNat F 360]
    (fuel : Nat) (deg : F) : Option F := do
  let deg ← normalize.loop1 fuel deg
  let deg ← normalize.loop2 fuel deg
  pure deg

/-- The constructor `Posture(roll_deg_in, pitch_deg_in, yaw_deg_in)`. -/
def ctor {F : Type} [LE F] [DecidableRel (α := F) (· ≤ ·)] [LT F]
    [DecidableRel (α := F) (· < ·)] [Sub F] [Add F] [Neg F] [OfNat F 180] [OfNat F 360]
    (fuel : Nat) (roll_deg_in pitch_deg_in yaw_deg_in : F) : Option (Posture F) := do
  let roll_deg ← normalize fuel roll_deg_in
  let pitch_deg ← normalize fuel pitch_deg_in
  let yaw_deg ← normalize fuel yaw_deg_in
  pure { roll_deg := roll_deg, pitch_deg := pitch_deg, yaw_deg := yaw_deg }

/-- The member `operator-`. -/
def sub {F : Type} [LE F] [DecidableRel (α := F) (· ≤ ·)] [LT F]
    [DecidableRel (α := F) (· < ·)] [Sub F] [Add F] [Neg F] [OfNat F 180] [OfNat F 360]
    (fuel : Nat) (self rhs : Posture F) : Option (Posture F) :=
  ctor fuel (self.roll_deg - rhs.roll_deg) (self.pitch_deg - rhs.pitch_deg)
    (self.yaw_deg - rhs.yaw_deg)

/-- The member `operator==`. -/
def eq {F : Type} [DecidableEq F] (self rhs : Posture F) : Bool :=
  decide (self.roll_deg = rhs.roll_deg) && decide (self.pitch_deg = rhs.pitch_deg) &&
    decide (self.yaw_deg = rhs.yaw_deg)

/-- The member `operator!=`, whose body `return !(*this != rhs);` calls `operator!=` itself;
`fuel` bounds the depth of the calls, `none` is a call that has not returned within it. -/
def ne {F : Type} : Nat → Posture F → Posture F → Option Bool
  | 0, _, _ => none
  | fuel + 1, self, rhs => (ne fuel self rhs).map (fun b => !b)

end Posture

/-- The function `getRotationValue`. -/
def getRotationValue {F : Type} [LinearOrderedField F]
    (angle_deg range_deg range_max range_min : F) : F :=
  let rotation_value := angle_deg / range_deg * (range_max - range_min)
  if rotation_value > range_max then range_max
  else if rotation_value < range_min then range_min
  else rotation_value

/-- The globals `g_uris`, `g_prof`, `g_ptspace` and `g_offset` of the sketch. -/
structure Globals (F : Type) [Zero F] where
  g_uris : UriList := {}
  g_prof : Profile := {}
  g_ptspace : PTSpace F := {}
  g_offset : Posture F := { roll_deg := 0, pitch_deg := 0, yaw_deg := 0 }

/-- What a run of `initTC70` leaves behind: the value it returns, the globals, and the responses
the commands it called have returned, in the order of the calls. -/
structure InitResult (F : Type) [Zero F] where
  value : Bool
  globals : Globals F
  responses : List String

/-- The function `initTC70`.  The `i`-th command it calls works in the surroundings `w i` and
posts to the transport `http i`. -/
def initTC70 {F : Type} [Zero F] (P : Platform F) (w : Nat → Ambient) (http : Nat → Transport)
    (g : Globals F) : Option (InitResult F) := do
  let capabilities ← GetCapabilities tc70control P (w 0) (http 0) "onvif/device_service"
  if WString.isEmpty capabilities then
    pure { value := false, globals := g, responses := [capabilities] }
  else
    let g_uris ← ExtractUris P capabilities
    let g := { g with g_uris := g_uris }
    let profiles ← GetProfiles tc70control P (w 1) (http 1) g.g_uris.media
    if WString.isEmpty profiles then
      pure { value := false, globals := g, responses := [capabilities, profiles] }
    else
      let g_prof ← ExtractFirstProfile P profiles
      let g := { g with g_prof := g_prof }
      let configuration_options ←
        GetConfigurationOptions tc70control P (w 2) (http 2) g.g_uris.ptz g.g_prof.ptztoken
      if WString.isEmpty configuration_options then
        pure { value := false, globals := g,
               responses := [capabilities, profiles, configuration_options] }
      else
        let g_ptspace ← ExtractAbsolutePTSpace P configuration_options
        let g := { g with g_ptspace := g_ptspace }
        let status ← GetStatus tc70control P (w 3) (http 3) g.g_uris.ptz g.g_prof.proftoken
        if WString.isEmpty status then
          pure { value := false, globals := g,
                 responses := [capabilities, profiles, configuration_options, status] }
        else
          let _pos ← ExtractAbsolutePosition P status
          pure { value := true, globals := g,
                 responses := [capabilities, profiles, configuration_options, status] }

/-- The two values `pan_rotation` and `tilt_rotation` that `updateTC70` computes. -/
def updateTC70.rotation {F : Type} [LinearOrderedField F] (g : Globals F) (fuel : Nat)
    (posture : Posture F) : Option (F × F) := do
  let tmp ← Posture.sub fuel posture g.g_offset
  let pan_rotation :=
    getRotationValue (- tmp.yaw_deg) PanRange_deg g.g_ptspace.PanMax g.g_ptspace.PanMin
  let tilt_rotation :=
    getRotationValue tmp.roll_deg TiltRange_deg g.g_ptspace.TiltMax g.g_ptspace.TiltMin
  pure (pan_rotation, tilt_rotation)

/-- The function `updateTC70`: the new content of its static `prev`, and the response of the
`AbsoluteMove` command when one is sent.  `prev` and `curr` are `unsigned long` values. -/
def updateTC70 {F : Type} [LinearOrderedField F] (P : Platform F) (w : Ambient)
    (http : Transport) (g : Globals F) (fuel : Nat) (prev curr : Nat) (posture : Posture F) :
    Option (Nat × Option String) :=
  if (curr + 2 ^ 32 - prev) % 2 ^ 32 < 100 then
    pure (prev, none)
  else do
    let prev := curr
    let r ← updateTC70.rotation g fuel posture
    let response ← AbsoluteMove tc70control P w http g.g_uris.ptz g.g_prof.proftoken r.1 r.2 1 1
    pure (prev, some response)

/-! ## The type `float` of the ESP32: IEEE 754 binary32

Every finite binary32 value is an integer multiple of 2^-149, the smallest subnormal.  A finite
value is held as that integer; the two zeros are not told apart.  The results of `+` and `-` are
rounded to nearest, ties to even, to a significand of 24 bits. -/

/-- A binary32 value; `finite n` is the number n · 2^-149. -/
inductive Binary32 where
  | finite (n : Int)
  | infinite (negative : Bool)
  | nan
  deriving DecidableEq

namespace Binary32

/-- The number of low bits of `a` beyond a significand of 24 bits. -/
def excessBits : Nat → Nat → Nat
  | 0, _ => 0
  | fuel + 1, a => if a < 2 ^ 24 then 0 else excessBits fuel (a / 2) + 1

/-- The magnitude `a` (in units of 2^-149) rounded to 24 significant bits, to nearest, ties to
even. -/
def roundMagnitude (a : Nat) : Nat :=
  let k := excessBits 300 a
  if k = 0 then a
  else
    let m := a / 2 ^ k
    let rest := a % 2 ^ k
    let half := 2 ^ (k - 1)
    let m := if rest > half ∨ (rest = half ∧ m % 2 = 1) then m + 1 else m
    m * 2 ^ k

/-- The binary32 value nearest to n · 2^-149; a result of magnitude 2^128 or more
is an infinity. -/
def nearest (n : Int) : Binary32 :=
  let r := roundMagnitude n.natAbs
  if r ≥ 2 ^ 128 * 2 ^ 149 then infinite (decide (n < 0))
  else finite (if n < 0 then - (r : Int) else (r : Int))

/-- The conversion of an integer constant to `float`. -/
def ofNat (n : Nat) : Binary32 := nearest ((n : Int) * 2 ^ 149)

def neg : Binary32 → Binary32
  | finite n => finite (- n)
  | infinite s => infinite (!s)
  | nan => nan

def add : Binary32 → Binary32 → Binary32
  | finite a, finite b => nearest (a + b)
  | finite _, infinite s => infinite s
  | infinite s, finite _ => infinite s
  | infinite s, infinite t => if s = t then infinite s else nan
  | _, _ => nan

def sub (a b : Binary32) : Binary32 := add a (neg b)

/-- The comparison `a < b`; it is false when an operand is a NaN. -/
def lt : Binary32 → Binary32 → Bool
  | finite a, finite b => decide (a < b)
  | finite _, infinite s => !s
  | infinite s, finite _ => s
  | infinite s, infinite t => s && !t
  | _, _ => false

/-- The comparison `a <= b`; it is false when an operand is a NaN. -/
def le : Binary32 → Binary32 → Bool
  | finite a, finite b => decide (a ≤ b)
  | finite _, infinite s => !s
  | infinite s, finite _ => s
  | infinite s, infinite t => s || !t
  | _, _ => false

/-- The number n · 2^-149 is a binary32 value (rounding leaves it as it is) of magnitude below
2^27. -/
def Below27 (n : Int) : Prop := nearest n = finite n ∧ n.natAbs < 2 ^ 27 * 2 ^ 149

/-- The angle `r` lies between -180 (included) and 180 (excluded) degrees and differs from `n`
by an integer multiple of 360 degrees; both are in units of 2^-149. -/
def Normalizes (n r : Int) : Prop :=
  -(180 * 2 ^ 149) ≤ r ∧ r < 180 * 2 ^ 149 ∧ ∃ k : Int, r = n - k * (360 * 2 ^ 149)

instance (n : Nat) : OfNat Binary32 n := ⟨ofNat n⟩

instance : Neg Binary32 := ⟨neg⟩

instance : Add Binary32 := ⟨add⟩

instance : Sub Binary32 := ⟨sub⟩

instance : LT Binary32 := ⟨fun a b => lt a b = true⟩

instance : LE Binary32 := ⟨fun a b => le a b = true⟩

instance : DecidableRel (α := Binary32) (· < ·) :=
  fun a b => inferInstanceAs (Decidable (lt a b = true))

instance : DecidableRel (α := Binary32) (· ≤ ·) :=
  fun a b => inferInstanceAs (Decidable (le a b = true))

end Binary32

/-! ## Serialised XML

The program writes its requests by joining pieces of text, and no parser of the repository reads
them back.  What such a text means is fixed here by a relation between a document tree and a
text: `Renders node text` holds when `text` is a well-formed serialisation of `node`. -/

/-- Text that may stand between two tags as it is: it holds no `<` and no `&`. -/
def isCharData (s : String) : Bool := s.data.all (fun c => c != '<' && c != '&')

/-- Text that may stand between the double quotes of an attribute as it is. -/
def isAttValue (s : String) : Bool := s.data.all (fun c => c != '<' && c != '&' && c != '"')

/-- Text made of spaces only. -/
def isBlank (s : String) : Bool := s.data.all (fun c => c == ' ')

/-- An element or attribute name: letters, digits and `:`, `_`, `-`, `.`, not empty. -/
def isName (s : String) : Bool :=
  !s.data.isEmpty &&
    s.data.all (fun c => c.isAlphanum || c == ':' || c == '_' || c == '-' || c == '.')

/-- Whether every attribute of a list has a well-formed name and value. -/
def areAttributes (attrs : List (String × String)) : Bool :=
  attrs.all (fun a => isName a.1 && isAttValue a.2)

/-- The attributes of a tag, each written as a space, the name, `="`, the value and `"`. -/
def renderAttributes : List (String × String) → String
  | [] => ""
  | a :: rest => " " ++ a.1 ++ "=\"" ++ a.2 ++ "\"" ++ renderAttributes rest

/-- The start tag of an element; `ws` is the blank space before its `>`. -/
def startTag (name : String) (attrs : List (String × String)) (ws : String) : String :=
  "<" ++ name ++ renderAttributes attrs ++ ws ++ ">"

/-- The end tag of an element. -/
def endTag (name : String) : String := "</" ++ name ++ ">"

/-- The tag of an element without content; `ws` is the blank space before its `/>`. -/
def emptyTag (name : String) (attrs : List (String × String)) (ws : String) : String :=
  "<" ++ name ++ renderAttributes attrs ++ ws ++ "/>"

mutual

/-- The text is a well-formed serialisation of the node. -/
inductive Renders : XMLNode → String → Prop where
  | text (v : String) : v ≠ "" → isCharData v = true → Renders (.text v) v
  | element (name : String) (attrs : List (String × String)) (children : List XMLNode)
      (ws inner : String) :
      isName name = true → areAttributes attrs = true → isBlank ws = true →
      RendersAll children inner →
      Renders (.element name attrs children) (startTag name attrs ws ++ inner ++ endTag name)
  | emptyElement (name : String) (attrs : List (String × String)) (ws : String) :
      isName name = true → areAttributes attrs = true → isBlank ws = true →
      Renders (.element name attrs []) (emptyTag name attrs ws)

/-- The text is the serialisations of the nodes of the list, one after the other. -/
inductive RendersAll : List XMLNode → String → Prop where
  | nil : RendersAll [] ""
  | cons (n : XMLNode) (ns : List XMLNode) (s t : String) :
      Renders n s → RendersAll ns t → RendersAll (n :: ns) (s ++ t)

end

/-- A host part as the claims take it: no `/` and no line terminator. -/
def isHost (host : String) : Bool := host.data.all (fun c => c != '/' && !isLineTerminator c)

/-- A path part as the claims take it: no line terminator. -/
def isPath (path : String) : Bool := path.data.all (fun c => !isLineTerminator c)

/-- The text of the element at the end of a path of element names below `e`: what `GetText()`
returns there, `none` when the element or its text is absent. -/
def XMLNode.textAt (e : XMLNode) (path : List String) : Option String :=
  (e.descend path).bind XMLNode.GetText

/-- The text of the element at the end of a path of element names below the document: what
`GetText()` returns there, `none` when the element or its text is absent. -/
def XMLDocument.textAt (doc : XMLDocument) (path : List String) : Option String :=
  (doc.descend path).bind XMLNode.GetText

/-- How a field of the result of `ExtractUris` stands to the text of the address it is set from:
when the address is `http://` host `/` rest with a host free of `/`, the field is that rest, the
scheme and the host stripped; when the address has no such form, the field is empty. -/
def IsPathOf (fullpath field : String) : Prop :=
  (field = "" ∧ ¬ ∃ host rest, isHost host = true ∧ isPath rest = true ∧
      fullpath = "http://" ++ host ++ "/" ++ rest) ∨
  ∃ host, isHost host = true ∧ isPath field = true ∧
    fullpath = "http://" ++ host ++ "/" ++ field

/-- Surroundings of a call on 17 May 2024. -/
def exampleAmbient : Ambient :=
  { random := fun i => 7 * i + 3
    strftime := "2024-05-17T10:20:30+0900"
    strftime_size := by decide
    stack := fun _ => 0 }

/-- The last two decimal digits of a number. -/
def twoDigits (n : Nat) : String := Nat.repr (n / 10 % 10) ++ Nat.repr (n % 10)

/-- The Arduino conversion `String(float)` on exact values: its second parameter
`decimalPlaces` has the default 2, so the text holds the value rounded to two decimal places
(half away from zero), with a leading `-` for a negative value. -/
def arduinoString (q : ℚ) : String :=
  let n := (2 * 100 * q.num.natAbs + q.den) / (2 * q.den)
  (if q.num < 0 then "-" else "") ++ Nat.repr (n / 100) ++ "." ++ twoDigits n

/-- The numbers that the example responses hold, as `sscanf("%f")` reads them. -/
def exampleToFloat (s : String) : Option ℚ :=
  if s = "-1.0" then some (-1)
  else if s = "1.0" then some 1
  else if s = "0.0" then some 0
  else if s = "0.5" then some (1 / 2)
  else if s = "-0.25" then some (-1 / 4)
  else none

/-- A stand-in for the digest of the hash primitive: 20 bytes computed from the message. -/
def exampleDigest (m : List Byte) : List Byte :=
  (List.range SHA1_LENGTH).map (fun i => toUInt8 (m.foldl (fun a b => 31 * a + b.val + i) 7))

/-- A SOAP response with the given content of its body. -/
def soapResponse (body : List XMLNode) : XMLDocument :=
  { children := [.other "xml version=\"1.0\" encoding=\"UTF-8\"",
      .element "SOAP-ENV:Envelope" [] [.element "SOAP-ENV:Body" [] body]] }

/-- The capability entry of one service with the given address. -/
def capability (service xaddr : String) : XMLNode :=
  .element service [] [.element "tt:XAddr" [] [.text xaddr]]

def exampleCapabilities : String :=
  "<?xml version=\"1.0\" encoding=\"UTF-8\"?><SOAP-ENV:Envelope><SOAP-ENV:Body>" ++
  "<tds:GetCapabilitiesResponse><tds:Capabilities>" ++
  "<tt:Media><tt:XAddr>http://10.0.0.5:2020/onvif/Media</tt:XAddr></tt:Media>" ++
  "<tt:Events><tt:XAddr>http://10.0.0.5:2020/onvif/Events</tt:XAddr></tt:Events>" ++
  "<tt:PTZ><tt:XAddr>http://10.0.0.5:2020/onvif/PTZ</tt:XAddr></tt:PTZ>" ++
  "</tds:Capabilities></tds:GetCapabilitiesResponse></SOAP-ENV:Body></SOAP-ENV:Envelope>"

def exampleCapabilitiesDoc : XMLDocument :=
  soapResponse [.element "tds:GetCapabilitiesResponse" [] [.element "tds:Capabilities" []
    [capability "tt:Media" "http://10.0.0.5:2020/onvif/Media",
     capability "tt:Events" "http://10.0.0.5:2020/onvif/Events",
     capability "tt:PTZ" "http://10.0.0.5:2020/onvif/PTZ"]]]

/-- A capabilities response without the entry of the media service. -/
def exampleCapabilitiesNoMedia : String :=
  "<?xml version=\"1.0\" encoding=\"UTF-8\"?><SOAP-ENV:Envelope><SOAP-ENV:Body>" ++
  "<tds:GetCapabilitiesResponse><tds:Capabilities>" ++
  "<tt:Events><tt:XAddr>http://10.0.0.5:2020/onvif/Events</tt:XAddr></tt:Events>" ++
  "<tt:PTZ><tt:XAddr>http://10.0.0.5:2020/onvif/PTZ</tt:XAddr></tt:PTZ>" ++
  "</tds:Capabilities></tds:GetCapabilitiesResponse></SOAP-ENV:Body></SOAP-ENV:Envelope>"

def exampleCapabilitiesNoMediaDoc : XMLDocument :=
  soapResponse [.element "tds:GetCapabilitiesResponse" [] [.element "tds:Capabilities" []
    [capability "tt:Events" "http://10.0.0.5:2020/onvif/Events",
     capability "tt:PTZ" "http://10.0.0.5:2020/onvif/PTZ"]]]

/-- A capabilities response whose addresses are of unusual forms: the PTZ address has a path
that is itself a URL, the media address uses `https`, the events address has no path. -/
def exampleCapabilitiesOdd : String :=
  "<?xml version=\"1.0\" encoding=\"UTF-8\"?><SOAP-ENV:Envelope><SOAP-ENV:Body>" ++
  "<tds:GetCapabilitiesResponse><tds:Capabilities>" ++
  "<tt:Media><tt:XAddr>https://10.0.0.5/onvif/Media</tt:XAddr></tt:Media>" ++
  "<tt:Events><tt:XAddr>http://10.0.0.5:2020</tt:XAddr></tt:Events>" ++
  "<tt:PTZ><tt:XAddr>http://10.0.0.5/http://10.0.0.6/onvif/PTZ</tt:XAddr></tt:PTZ>" ++
  "</tds:Capabilities></tds:GetCapabilitiesResponse></SOAP-ENV:Body></SOAP-ENV:Envelope>"

def exampleCapabilitiesOddDoc : XMLDocument :=
  soapResponse [.element "tds:GetCapabilitiesResponse" [] [.element "tds:Capabilities" []
    [capability "tt:Media" "https://10.0.0.5/onvif/Media",
     capability "tt:Events" "http://10.0.0.5:2020",
     capability "tt:PTZ" "http://10.0.0.5/http://10.0.0.6/onvif/PTZ"]]]

def exampleProfiles : String :=
  "<?xml version=\"1.0\" encoding=\"UTF-8\"?><SOAP-ENV:Envelope><SOAP-ENV:Body>" ++
  "<trt:GetProfilesResponse>" ++
  "<trt:Profiles token=\"profile_1\"><tt:PTZConfiguration token=\"PTZToken\"/></trt:Profiles>" ++
  "<trt:Profiles token=\"profile_2\"><tt:PTZConfiguration token=\"PTZOther\"/></trt:Profiles>" ++
  "</trt:GetProfilesResponse></SOAP-ENV:Body></SOAP-ENV:Envelope>"

def exampleProfilesDoc : XMLDocument :=
  soapResponse [.element "trt:GetProfilesResponse" []
    [.element "trt:Profiles" [("token", "profile_1")]
       [.element "tt:PTZConfiguration" [("token", "PTZToken")] []],
     .element "trt:Profiles" [("token", "profile_2")]
       [.element "tt:PTZConfiguration" [("token", "PTZOther")] []]]]

/-- A range element with its two bounds. -/
def range (name min max : String) : XMLNode :=
  .element name [] [.element "tt:Min" [] [.text min], .element "tt:Max" [] [.text max]]

def exampleConfigurationOptions : String :=
  "<?xml version=\"1.0\" encoding=\"UTF-8\"?><SOAP-ENV:Envelope><SOAP-ENV:Body>" ++
  "<tptz:GetConfigurationOptionsResponse><tptz:PTZConfigurationOptions><tt:Spaces>" ++
  "<tt:AbsolutePanTiltPositionSpace>" ++
  "<tt:XRange><tt:Min>-1.0</tt:Min><tt:Max>1.0</tt:Max></tt:XRange>" ++
  "<tt:YRange><tt:Min>-0.25</tt:Min><tt:Max>0.5</tt:Max></tt:YRange>" ++
  "</tt:AbsolutePanTiltPositionSpace>" ++
  "<tt:PanTiltSpeedSpace>" ++
  "<tt:XRange><tt:Min>0.0</tt:Min><tt:Max>1.0</tt:Max></tt:XRange>" ++
  "</tt:PanTiltSpeedSpace>" ++
  "</tt:Spaces></tptz:PTZConfigurationOptions></tptz:GetConfigurationOptionsResponse>" ++
  "</SOAP-ENV:Body></SOAP-ENV:Envelope>"

def exampleAbsoluteSpace : XMLNode :=
  .element "tt:AbsolutePanTiltPositionSpace" []
    [range "tt:XRange" "-1.0" "1.0", range "tt:YRange" "-0.25" "0.5"]

def exampleSpeedSpace : XMLNode :=
  .element "tt:PanTiltSpeedSpace" [] [range "tt:XRange" "0.0" "1.0"]

def exampleConfigurationOptionsDoc : XMLDocument :=
  soapResponse [.element "tptz:GetConfigurationOptionsResponse" []
    [.element "tptz:PTZConfigurationOptions" []
      [.element "tt:Spaces" [] [exampleAbsoluteSpace, exampleSpeedSpace]]]]

def exampleStatus : String :=
  "<?xml version=\"1.0\" encoding=\"UTF-8\"?><SOAP-ENV:Envelope><SOAP-ENV:Body>" ++
  "<tptz:GetStatusResponse><tptz:PTZStatus><tt:Position>" ++
  "<tt:PanTilt x=\"0.5\" y=\"-0.25\"/>" ++
  "</tt:Position></tptz:PTZStatus></tptz:GetStatusResponse>" ++
  "</SOAP-ENV:Body></SOAP-ENV:Envelope>"

def examplePanTilt : XMLNode := .element "tt:PanTilt" [("x", "0.5"), ("y", "-0.25")] []

def exampleStatusDoc : XMLDocument :=
  soapResponse [.element "tptz:GetStatusResponse" []
    [.element "tptz:PTZStatus" [] [.element "tt:Position" [] [examplePanTilt]]]]

/-- A well-formed document that is no SOAP response. -/
def exampleOther : String := "<a/>"

def exampleOtherDoc : XMLDocument := { children := [.element "a" [] []] }

/-- The documents that tinyxml2 builds from the example responses. -/
def exampleDocuments : List (String × XMLDocument) :=
  [(exampleCapabilities, exampleCapabilitiesDoc),
   (exampleCapabilitiesNoMedia, exampleCapabilitiesNoMediaDoc),
   (exampleCapabilitiesOdd, exampleCapabilitiesOddDoc),
   (exampleProfiles, exampleProfilesDoc),
   (exampleConfigurationOptions, exampleConfigurationOptionsDoc),
   (exampleStatus, exampleStatusDoc),
   (exampleOther, exampleOtherDoc)]

/-- A platform for the examples: the parser accepts the example responses and rejects every
other text, and the hash primitive reports success with the code 0. -/
def examplePlatform : Platform ℚ :=
  { Parse := fun s => (exampleDocuments.find? (fun e => e.1 == s)).map (fun e => e.2)
    ToFloat := exampleToFloat
    StringOfFloat := arduinoString
    mbedtls_md := fun m => (0, exampleDigest m)
    md_size := fun m => by simp [exampleDigest] }

/-- A password of 100 bytes. -/
def longPassword : String := String.mk (List.replicate 100 'p')

/-- A transport that answers every request with the status 200 and the given body. -/
def answer (body : String) : Transport := fun _ => { status := 200, body := body }

/-- The camera of the examples: it answers the four requests of `initTC70` in turn. -/
def exampleCamera : Nat → Transport
  | 0 => answer exampleCapabilities
  | 1 => answer exampleProfiles
  | 2 => answer exampleConfigurationOptions
  | _ => answer exampleStatus

/-- A password of 88 bytes, the longest that fits the array beside a timestamp of 24 bytes. -/
def password88 : String := String.mk (List.replicate 88 'p')

/-- A password of 89 bytes. -/
def password89 : String := String.mk (List.replicate 89 'p')

set_option maxRecDepth 100000


theorem memcpy_at_end (pre rest src : List Byte) (n : Nat) (h1 : n ≤ rest.length)
    (h2 : n ≤ src.length) :
    memcpy (pre ++ rest) pre.length src n = some (pre ++ src.take n ++ rest.drop n) := by
  unfold memcpy
  have : pre.length + n ≤ (pre ++ rest).length ∧ n ≤ src.length := by
    simp [List.length_append]; omega
  rw [if_pos this]
  simp [List.take_append_eq_append_take, List.drop_append_eq_append_drop]

theorem memcpy_eq_none (buf src : List Byte) (dst n : Nat) (h : buf.length < dst + n) :
    memcpy buf dst src n = none := by
  unfold memcpy
  rw [if_neg]; omega

theorem memcpy_length (buf src out : List Byte) (dst n : Nat) (h : memcpy buf dst src n = some out) :
    out.length = buf.length := by
  unfold memcpy at h
  split at h
  · rename_i hc
    cases h
    simp [List.length_append, List.length_take, List.length_drop]
    omega
  · cases h

theorem GenerateNonce_length (w : Ambient) : (GenerateNonce w).length = NONCE_LENGTH := by
  simp [GenerateNonce]

theorem c_str_take (s : String) :
    (WString.c_str s).take (WString.length s) = WString.bytes s := by
  simp [WString.c_str, WString.length]

/-- A password too long for the 128-byte array makes the third copy run past its end. -/
theorem gsp_overflow {F : Type} (P : Platform F) (w : Ambient) (pw : String)
    (h : 128 < NONCE_LENGTH + WString.length w.strftime + WString.length pw) :
    GenerateSecurityParameters P w pw = none := by
  unfold GenerateSecurityParameters
  have hb : ((List.range 128).map w.stack).length = 128 := by simp
  cases h1 : memcpy ((List.range 128).map w.stack) 0 (GenerateNonce w) NONCE_LENGTH with
  | none => simp [h1]
  | some buf1 =>
    have l1 := memcpy_length _ _ _ _ _ h1
    cases h2 : memcpy buf1 NONCE_LENGTH (WString.c_str w.strftime) (WString.length w.strftime) with
    | none => simp [h1, h2]
    | some buf2 =>
      have l2 := memcpy_length _ _ _ _ _ h2
      have h3 := memcpy_eq_none buf2 (WString.c_str pw) (NONCE_LENGTH + WString.length w.strftime)
        (WString.length pw) (by omega)
      simp [h1, h2, h3]

/-- When the three pieces fit the 128-byte array, the record holds the digest of their
concatenation. -/
theorem gsp_fits {F : Type} (P : Platform F) (w : Ambient) (pw : String) (h : NONCE_LENGTH + WString.length w.strftime + WString.length pw ≤ 128) :
  GenerateSecurityParameters P w pw = some { created := w.strftime, nonce := GenerateNonce w, password_digest := P.SHA1 (GenerateNonce w ++ WString.bytes w.strftime ++ WString.bytes pw)} := by
  have hn := GenerateNonce_length w
  have hb : ((List.range 128).map w.stack).length = 128 := by simp
  generalize hbuf : (List.range 128).map w.stack = buf0 at hb
  have e1 : memcpy buf0 0 (GenerateNonce w) NONCE_LENGTH = some (GenerateNonce w ++ buf0.drop NONCE_LENGTH) := by
    have := memcpy_at_end [] buf0 (GenerateNonce w) NONCE_LENGTH (by omega) (by omega)
    simpa [← hn] using this
  have e2 : memcpy (GenerateNonce w ++ buf0.drop NONCE_LENGTH) NONCE_LENGTH (WString.c_str w.strftime) (WString.length w.strftime)
      = some (GenerateNonce w ++ WString.bytes w.strftime ++ (buf0.drop NONCE_LENGTH).drop (WString.length w.strftime)) := by
    have := memcpy_at_end (GenerateNonce w) (buf0.drop NONCE_LENGTH) (WString.c_str w.strftime) (WString.length w.strftime)
      (by simp; omega) (by simp [WString.c_str, WString.length])
    rw [hn, c_str_take] at this
    exact this
  have e3 : memcpy (GenerateNonce w ++ WString.bytes w.strftime ++ (buf0.drop NONCE_LENGTH).drop (WString.length w.strftime))
      (NONCE_LENGTH + WString.length w.strftime) (WString.c_str pw) (WString.length pw)
      = some (GenerateNonce w ++ WString.bytes w.strftime ++ WString.bytes pw ++
          ((buf0.drop NONCE_LENGTH).drop (WString.length w.strftime)).drop (WString.length pw)) := by
    have := memcpy_at_end (GenerateNonce w ++ WString.bytes w.strftime) ((buf0.drop NONCE_LENGTH).drop (WString.length w.strftime))
      (WString.c_str pw) (WString.length pw)
      (by simp; omega) (by simp [WString.c_str, WString.length])
    rw [c_str_take] at this
    rw [← this]
    congr 1
    simp [hn, WString.length]
  have e4 : calcSHA1 P (GenerateNonce w ++ WString.bytes w.strftime ++ WString.bytes pw ++
          ((buf0.drop NONCE_LENGTH).drop (WString.length w.strftime)).drop (WString.length pw))
          (NONCE_LENGTH + WString.length w.strftime + WString.length pw)
        = some ((P.mbedtls_md (GenerateNonce w ++ WString.bytes w.strftime ++ WString.bytes pw)).1 == (SHA1_LENGTH : Int),
            P.SHA1 (GenerateNonce w ++ WString.bytes w.strftime ++ WString.bytes pw)) := by
    have hl : (GenerateNonce w ++ WString.bytes w.strftime ++ WString.bytes pw).length
        = NONCE_LENGTH + WString.length w.strftime + WString.length pw := by
      simp [hn, WString.length]; omega
    unfold calcSHA1
    rw [if_pos (by rw [List.length_append, hl]; omega)]
    rw [← hl, List.take_left']
    · rfl
    · rfl
  unfold GenerateSecurityParameters
  simp only [hbuf, e1, e2, e3, e4, Option.bind_eq_bind, Option.some_bind, Option.pure_def, bind_pure_comp]
  simp [← hn]

/-- Claim C1, a defect of the code: with the password of 100 bytes, the nonce, the timestamp and the password
take 16 + 24 + 100 = 140 bytes, more than the 128 bytes of `nonce_created_password_buf`; the
third `memcpy` writes past the end of the array and no record is returned. -/
theorem GenerateSecurityParameters_longPassword :
    GenerateSecurityParameters examplePlatform exampleAmbient longPassword = none :=
  gsp_overflow examplePlatform exampleAmbient longPassword (by decide)

/-! ## The extractors -/

/-- Claim C3: on a text that the XML parser rejects, each extractor returns its default value: three
empty strings, two empty tokens, six bounds equal to 0, and pan = 0, tilt = 0. -/
theorem extractors_parse_failure {F : Type} [Zero F] (P : Platform F) (s : String)
    (h : P.Parse s = none) :
    ExtractUris P s = some { media := "", ptz := "", events := "" } ∧
    ExtractFirstProfile P s = some { proftoken := "", ptztoken := "" } ∧
    ExtractAbsolutePTSpace P s = some { PanMin := 0, PanMax := 0, TiltMin := 0, TiltMax := 0,
                                        SpeedMin := 0, SpeedMax := 0 } ∧
    ExtractAbsolutePosition P s = some { pan := 0, tilt := 0 } := by
  simp [ExtractUris, ExtractFirstProfile, ExtractAbsolutePTSpace, ExtractAbsolutePosition, h]

theorem extractors_parse_failure_witness :
    ExtractUris examplePlatform "<a" = some { media := "", ptz := "", events := "" } ∧
    ExtractFirstProfile examplePlatform "<a" = some { proftoken := "", ptztoken := "" } ∧
    ExtractAbsolutePTSpace examplePlatform "<a" =
      some { PanMin := 0, PanMax := 0, TiltMin := 0, TiltMax := 0, SpeedMin := 0, SpeedMax := 0 } ∧
    ExtractAbsolutePosition examplePlatform "<a" = some { pan := 0, tilt := 0 } :=
  extractors_parse_failure examplePlatform "<a" (by rfl)

theorem ToFloat_some {F : Type} (P : Platform F) (s : String) (value : F) :
    ∃ r, ToFloat P (some s) value = some r := by
  simp only [ToFloat]
  cases P.ToFloat s <;> simp

theorem ToFloat_none {F : Type} (P : Platform F) (value : F) :
    ToFloat P none value = none := rfl

theorem ExtractAbsolutePosition_isSome {F : Type} [Zero F] (P : Platform F) (s : String) :
    (ExtractAbsolutePosition P s).isSome = true ↔
      ∀ doc, P.Parse s = some doc →
        ∃ e, doc.descend ["SOAP-ENV:Envelope", "SOAP-ENV:Body", "tptz:GetStatusResponse",
              "tptz:PTZStatus", "tt:Position", "tt:PanTilt"] = some e ∧
          (e.Attribute "x").isSome = true ∧ (e.Attribute "y").isSome = true := by
  unfold ExtractAbsolutePosition
  cases hp : P.Parse s with
  | none => simp
  | some doc =>
    simp only [Option.some.injEq, forall_eq', Option.bind_eq_bind, Option.pure_def]
    cases hd : doc.descend ["SOAP-ENV:Envelope", "SOAP-ENV:Body", "tptz:GetStatusResponse",
              "tptz:PTZStatus", "tt:Position", "tt:PanTilt"] with
    | none => simp
    | some e =>
      simp only [Option.some_bind, Option.some.injEq, exists_eq_left']
      cases hx : e.Attribute "x" with
      | none => simp [ToFloat_none, hx]
      | some x =>
        obtain ⟨rx, hrx⟩ := ToFloat_some P x (0 : F)
        cases hy : e.Attribute "y" with
        | none => simp [ToFloat_none, hrx, hx, hy]
        | some y =>
          obtain ⟨ry, hry⟩ := ToFloat_some P y (0 : F)
          simp [hrx, hry, hx, hy]

theorem ExtractFirstProfile_isSome {F : Type} (P : Platform F) (s : String) :
    (ExtractFirstProfile P s).isSome = true ↔
      ∀ doc, P.Parse s = some doc →
        ∃ e, doc.descend ["SOAP-ENV:Envelope", "SOAP-ENV:Body", "trt:GetProfilesResponse",
              "trt:Profiles"] = some e ∧
          (e.FirstChildElement "tt:PTZConfiguration").isSome = true := by
  unfold ExtractFirstProfile
  cases hp : P.Parse s with
  | none => simp
  | some doc =>
    simp only [Option.some.injEq, forall_eq', Option.bind_eq_bind, Option.pure_def]
    cases hd : doc.descend ["SOAP-ENV:Envelope", "SOAP-ENV:Body", "trt:GetProfilesResponse",
              "trt:Profiles"] with
    | none => simp
    | some e =>
      simp only [Option.some_bind, Option.some.injEq, exists_eq_left']
      cases hx : e.FirstChildElement "tt:PTZConfiguration" <;> simp [hx]

theorem readBound_isSome {F : Type} (P : Platform F) (space : XMLNode) (range bound : String) (value : F) :
    (readBound P space range bound value).isSome = true ↔
      ∃ e, space.descend [range, bound] = some e ∧ e.GetText.isSome = true := by
  unfold readBound
  cases hd : space.descend [range, bound] with
  | none => simp
  | some e =>
    simp only [Option.some_bind, Option.some.injEq, exists_eq_left', Option.bind_eq_bind]
    cases ht : e.GetText with
    | none => simp [ToFloat_none, ht]
    | some t =>
      obtain ⟨r, hr⟩ := ToFloat_some P t value
      simp [hr, ht]

theorem bind_isSome {α β : Type} (x : Option α) (f : α → Option β) :
    (x.bind f).isSome = true ↔ ∃ a, x = some a ∧ (f a).isSome = true := by
  cases x <;> simp

theorem ExtractAbsolutePTSpace_isSome {F : Type} [Zero F] (P : Platform F) (s : String) :
    (ExtractAbsolutePTSpace P s).isSome = true ↔
      ∀ doc, P.Parse s = some doc →
        ∃ spaces abs spd, doc.descend ["SOAP-ENV:Envelope", "SOAP-ENV:Body",
              "tptz:GetConfigurationOptionsResponse", "tptz:PTZConfigurationOptions",
              "tt:Spaces"] = some spaces ∧
          spaces.FirstChildElement "tt:AbsolutePanTiltPositionSpace" = some abs ∧
          spaces.FirstChildElement "tt:PanTiltSpeedSpace" = some spd ∧
          (∃ e, abs.descend ["tt:XRange", "tt:Min"] = some e ∧ e.GetText.isSome = true) ∧
          (∃ e, abs.descend ["tt:XRange", "tt:Max"] = some e ∧ e.GetText.isSome = true) ∧
          (∃ e, abs.descend ["tt:YRange", "tt:Min"] = some e ∧ e.GetText.isSome = true) ∧
          (∃ e, abs.descend ["tt:YRange", "tt:Max"] = some e ∧ e.GetText.isSome = true) ∧
          (∃ e, spd.descend ["tt:XRange", "tt:Min"] = some e ∧ e.GetText.isSome = true) ∧
          (∃ e, spd.descend ["tt:XRange", "tt:Max"] = some e ∧ e.GetText.isSome = true) := by
  unfold ExtractAbsolutePTSpace
  cases hp : P.Parse s with
  | none => simp
  | some doc =>
    simp only [Option.some.injEq, forall_eq', Option.bind_eq_bind, Option.pure_def, bind_isSome,
      Option.isSome_some, and_true]
    have rb : ∀ (space : XMLNode) (r b : String), (∃ v : F, readBound P space r b 0 = some v) ↔
        ∃ e, space.descend [r, b] = some e ∧ e.GetText.isSome = true := by
      intro space r b
      rw [← Option.isSome_iff_exists, readBound_isSome]
    constructor
    · rintro ⟨spaces, hd, abs, ha, v1, h1, v2, h2, v3, h3, v4, h4, spd, hs, v5, h5, v6, h6⟩
      exact ⟨spaces, abs, spd, hd, ha, hs, (rb _ _ _).1 ⟨v1, h1⟩, (rb _ _ _).1 ⟨v2, h2⟩,
        (rb _ _ _).1 ⟨v3, h3⟩, (rb _ _ _).1 ⟨v4, h4⟩, (rb _ _ _).1 ⟨v5, h5⟩,
        (rb _ _ _).1 ⟨v6, h6⟩⟩
    · rintro ⟨spaces, abs, spd, hd, ha, hs, e1, e2, e3, e4, e5, e6⟩
      obtain ⟨v1, h1⟩ := (rb _ _ _).2 e1
      obtain ⟨v2, h2⟩ := (rb _ _ _).2 e2
      obtain ⟨v3, h3⟩ := (rb _ _ _).2 e3
      obtain ⟨v4, h4⟩ := (rb _ _ _).2 e4
      obtain ⟨v5, h5⟩ := (rb _ _ _).2 e5
      obtain ⟨v6, h6⟩ := (rb _ _ _).2 e6
      exact ⟨spaces, hd, abs, ha, v1, h1, v2, h2, v3, h3, v4, h4, spd, hs, v5, h5, v6, h6⟩

theorem ExtractUris_isSome {F : Type} (P : Platform F) (s : String) :
    (ExtractUris P s).isSome = true ↔
      ∀ doc, P.Parse s = some doc →
        ∀ service ∈ ["tt:Media", "tt:Events", "tt:PTZ"],
          ∃ x, doc.descend ["SOAP-ENV:Envelope", "SOAP-ENV:Body", "tds:GetCapabilitiesResponse",
            "tds:Capabilities", service, "tt:XAddr"] = some x ∧ x.GetText.isSome = true := by
  unfold ExtractUris
  cases hp : P.Parse s with
  | none => simp
  | some doc =>
    simp only [Option.some.injEq, forall_eq', Option.bind_eq_bind, Option.pure_def, bind_isSome,
      Option.isSome_some, and_true, List.forall_mem_cons, List.not_mem_nil, false_implies,
      implies_true, ExtractUris.media, ExtractUris.events, ExtractUris.ptz, Option.bind_eq_some]
    simp only [Option.isSome_iff_exists]
    constructor
    · rintro ⟨_, ⟨x1, h1, t1, g1, -⟩, _, ⟨x2, h2, t2, g2, -⟩, _, ⟨x3, h3, t3, g3, -⟩⟩
      exact ⟨⟨x1, h1, t1, g1⟩, ⟨x2, h2, t2, g2⟩, ⟨x3, h3, t3, g3⟩⟩
    · rintro ⟨⟨x1, h1, t1, g1⟩, ⟨x2, h2, t2, g2⟩, ⟨x3, h3, t3, g3⟩⟩
      exact ⟨_, ⟨x1, h1, t1, g1, rfl⟩, _, ⟨x2, h2, t2, g2, rfl⟩, _, ⟨x3, h3, t3, g3, rfl⟩⟩

/-- Claim C2, as amended: each extractor returns a result exactly when the parser rejects the
input or the parsed document holds every element and text that the extractor dereferences:
for `ExtractUris` the `tt:XAddr` text of all three services, for `ExtractFirstProfile` the first
`trt:Profiles` element and its `tt:PTZConfiguration` child (a missing `token` attribute is read
as the empty string), for `ExtractAbsolutePTSpace` the two space elements and the six bound
texts, for `ExtractAbsolutePosition` the `tt:PanTilt` element with its attributes `x` and `y`.
In every other case a null pointer is dereferenced and nothing is returned. -/
theorem extractors_return_iff {F : Type} [Zero F] (P : Platform F) (s : String) :
    ((ExtractUris P s).isSome = true ↔
      ∀ doc, P.Parse s = some doc →
        ∀ service ∈ ["tt:Media", "tt:Events", "tt:PTZ"],
          ∃ x, doc.descend ["SOAP-ENV:Envelope", "SOAP-ENV:Body", "tds:GetCapabilitiesResponse",
            "tds:Capabilities", service, "tt:XAddr"] = some x ∧ x.GetText.isSome = true) ∧
    ((ExtractFirstProfile P s).isSome = true ↔
      ∀ doc, P.Parse s = some doc →
        ∃ e, doc.descend ["SOAP-ENV:Envelope", "SOAP-ENV:Body", "trt:GetProfilesResponse",
              "trt:Profiles"] = some e ∧
          (e.FirstChildElement "tt:PTZConfiguration").isSome = true) ∧
    ((ExtractAbsolutePTSpace P s).isSome = true ↔
      ∀ doc, P.Parse s = some doc →
        ∃ spaces abs spd, doc.descend ["SOAP-ENV:Envelope", "SOAP-ENV:Body",
              "tptz:GetConfigurationOptionsResponse", "tptz:PTZConfigurationOptions",
              "tt:Spaces"] = some spaces ∧
          spaces.FirstChildElement "tt:AbsolutePanTiltPositionSpace" = some abs ∧
          spaces.FirstChildElement "tt:PanTiltSpeedSpace" = some spd ∧
          (∃ e, abs.descend ["tt:XRange", "tt:Min"] = some e ∧ e.GetText.isSome = true) ∧
          (∃ e, abs.descend ["tt:XRange", "tt:Max"] = some e ∧ e.GetText.isSome = true) ∧
          (∃ e, abs.descend ["tt:YRange", "tt:Min"] = some e ∧ e.GetText.isSome = true) ∧
          (∃ e, abs.descend ["tt:YRange", "tt:Max"] = some e ∧ e.GetText.isSome = true) ∧
          (∃ e, spd.descend ["tt:XRange", "tt:Min"] = some e ∧ e.GetText.isSome = true) ∧
          (∃ e, spd.descend ["tt:XRange", "tt:Max"] = some e ∧ e.GetText.isSome = true)) ∧
    ((ExtractAbsolutePosition P s).isSome = true ↔
      ∀ doc, P.Parse s = some doc →
        ∃ e, doc.descend ["SOAP-ENV:Envelope", "SOAP-ENV:Body", "tptz:GetStatusResponse",
              "tptz:PTZStatus", "tt:Position", "tt:PanTilt"] = some e ∧
          (e.Attribute "x").isSome = true ∧ (e.Attribute "y").isSome = true) :=
  ⟨ExtractUris_isSome P s, ExtractFirstProfile_isSome P s, ExtractAbsolutePTSpace_isSome P s,
    ExtractAbsolutePosition_isSome P s⟩

/-- Claim C2 fails as stated: the text `<a/>` is well-formed XML without a `SOAP-ENV:Envelope`
element, and on it each of the four extractors calls `FirstChildElement` through the null
pointer instead of returning a default value. -/
theorem extractors_missing_element :
    ExtractUris examplePlatform exampleOther = none ∧
    ExtractFirstProfile examplePlatform exampleOther = none ∧
    ExtractAbsolutePTSpace examplePlatform exampleOther = none ∧
    ExtractAbsolutePosition examplePlatform exampleOther = none :=
  ⟨by rfl, by rfl, by rfl, by rfl⟩


theorem matchLiteral_append (p rest : List Char) : matchLiteral p (p ++ rest) = some rest := by
  induction p with
  | nil => cases rest <;> rfl
  | cons c cs ih => simp [matchLiteral, ih]

theorem matchLazy_split (host path : List Char) (group1 : List Char)
    (hh : host.all (fun c => c != '/' && !isLineTerminator c) = true)
    (hp : path.all (fun c => !isLineTerminator c) = true) :
    matchLazy group1 (host ++ '/' :: path) = some (group1 ++ host, path) := by
  induction host generalizing group1 with
  | nil => simp [matchLazy, matchSlashGreedy, hp]
  | cons c cs ih =>
    simp only [List.all_cons, Bool.and_eq_true, bne_iff_ne, ne_eq, Bool.not_eq_true'] at hh
    obtain ⟨⟨hc1, hc2⟩, hcs⟩ := hh
    have := ih (group1 ++ [c]) hcs
    simp [matchLazy, matchSlashGreedy, hc1, hc2, this]

theorem regex_match_url (host path : String) (hh : isHost host = true) (hp : isPath path = true) :
    regex_match ("http://" ++ host ++ "/" ++ path) = some (host, path) := by
  have e : ("http://" ++ host ++ "/" ++ path).data = "http://".data ++ (host.data ++ '/' :: path.data) := by
    simp [String.data_append]
  unfold regex_match
  rw [e, matchLiteral_append]
  simp only
  rw [matchLazy_split host.data path.data [] hh hp]
  simp

theorem assignPath_url (field host path : String) (hh : isHost host = true) (hp : isPath path = true) :
    assignPath field ("http://" ++ host ++ "/" ++ path) = path := by
  simp [assignPath, regex_match_url host path hh hp]

/-- On a response that holds the three addresses, each field is set from its own address. -/
theorem ExtractUris_eq {F : Type} (P : Platform F) (capabilities : String) (doc : XMLDocument)
    (xm xe xp : XMLNode) (tm te tp : String)
    (hparse : P.Parse capabilities = some doc)
    (hm : doc.descend ["SOAP-ENV:Envelope", "SOAP-ENV:Body", "tds:GetCapabilitiesResponse",
      "tds:Capabilities", "tt:Media", "tt:XAddr"] = some xm) (htm : xm.GetText = some tm)
    (he : doc.descend ["SOAP-ENV:Envelope", "SOAP-ENV:Body", "tds:GetCapabilitiesResponse",
      "tds:Capabilities", "tt:Events", "tt:XAddr"] = some xe) (hte : xe.GetText = some te)
    (hp : doc.descend ["SOAP-ENV:Envelope", "SOAP-ENV:Body", "tds:GetCapabilitiesResponse",
      "tds:Capabilities", "tt:PTZ", "tt:XAddr"] = some xp) (htp : xp.GetText = some tp) :
    ExtractUris P capabilities =
      some { media := assignPath "" tm, events := assignPath "" te, ptz := assignPath "" tp } := by
  simp [ExtractUris, hparse, ExtractUris.media, ExtractUris.events, ExtractUris.ptz, hm, he, hp,
    htm, hte, htp]

/-- Claim C4: when the capabilities response has the expected shape, an address of the form
`http://` host `/` path below `tt:PTZ` (the host without `/`, neither part with a line
terminator) gives `ptz` = path exactly; the same holds below `tt:Media` for `media` and below
`tt:Events` for `events`. -/
theorem ExtractUris_path {F : Type} (P : Platform F) (capabilities : String) (doc : XMLDocument)
    (xm xe xp : XMLNode) (tm te tp : String)
    (hparse : P.Parse capabilities = some doc)
    (hm : doc.descend ["SOAP-ENV:Envelope", "SOAP-ENV:Body", "tds:GetCapabilitiesResponse",
      "tds:Capabilities", "tt:Media", "tt:XAddr"] = some xm) (htm : xm.GetText = some tm)
    (he : doc.descend ["SOAP-ENV:Envelope", "SOAP-ENV:Body", "tds:GetCapabilitiesResponse",
      "tds:Capabilities", "tt:Events", "tt:XAddr"] = some xe) (hte : xe.GetText = some te)
    (hp : doc.descend ["SOAP-ENV:Envelope", "SOAP-ENV:Body", "tds:GetCapabilitiesResponse",
      "tds:Capabilities", "tt:PTZ", "tt:XAddr"] = some xp) (htp : xp.GetText = some tp) :
    ∃ uris, ExtractUris P capabilities = some uris ∧
      (∀ host path, isHost host = true → isPath path = true →
        tp = "http://" ++ host ++ "/" ++ path → uris.ptz = path) ∧
      (∀ host path, isHost host = true → isPath path = true →
        tm = "http://" ++ host ++ "/" ++ path → uris.media = path) ∧
      (∀ host path, isHost host = true → isPath path = true →
        te = "http://" ++ host ++ "/" ++ path → uris.events = path) := by
  refine ⟨_, ExtractUris_eq P capabilities doc xm xe xp tm te tp hparse hm htm he hte hp htp,
    ?_, ?_, ?_⟩ <;>
  · intro host path hh hpth e
    subst e
    exact assignPath_url "" host path hh hpth

theorem ExtractUris_path_witness :
    (ExtractUris examplePlatform exampleCapabilities).map (fun uris => uris.ptz) =
      some "onvif/PTZ" := by
  obtain ⟨uris, h, hptz, -, -⟩ := ExtractUris_path examplePlatform exampleCapabilities
    exampleCapabilitiesDoc (.element "tt:XAddr" [] [.text "http://10.0.0.5:2020/onvif/Media"])
    (.element "tt:XAddr" [] [.text "http://10.0.0.5:2020/onvif/Events"])
    (.element "tt:XAddr" [] [.text "http://10.0.0.5:2020/onvif/PTZ"])
    "http://10.0.0.5:2020/onvif/Media" "http://10.0.0.5:2020/onvif/Events"
    "http://10.0.0.5:2020/onvif/PTZ" (by rfl) (by rfl) (by rfl) (by rfl) (by rfl) (by rfl) (by rfl)
  rw [h, Option.map_some', hptz "10.0.0.5:2020" "onvif/PTZ" (by decide) (by decide) (by rfl)]

theorem ToFloat_read {F : Type} (P : Platform F) (s : String) (value v : F)
    (h : P.ToFloat s = some v) : ToFloat P (some s) value = some v := by
  simp [ToFloat, h]

theorem readBound_read {F : Type} (P : Platform F) (space : XMLNode) (range bound t : String)
    (value v : F) (ht : space.textAt [range, bound] = some t) (h : P.ToFloat t = some v) :
    readBound P space range bound value = some v := by
  unfold XMLNode.textAt at ht
  obtain ⟨e, he, hte⟩ := Option.bind_eq_some.1 ht
  simp [readBound, he, hte, ToFloat_read P t value v h]

theorem XMLNode.descend_append (e : XMLNode) (p q : List String) :
    e.descend (p ++ q) = (e.descend p).bind (fun c => c.descend q) := by
  induction p generalizing e with
  | nil => simp [XMLNode.descend]
  | cons n ns ih =>
    simp only [List.cons_append, XMLNode.descend]
    cases e.FirstChildElement n with
    | none => rfl
    | some c => simpa using ih c

theorem XMLDocument.descend_cons_append (doc : XMLDocument) (n : String) (p q : List String) :
    doc.descend (n :: p ++ q) = (doc.descend (n :: p)).bind (fun c => c.descend q) := by
  simp only [List.cons_append, XMLDocument.descend]
  cases doc.FirstChildElement n with
  | none => rfl
  | some c => simpa using XMLNode.descend_append c p q

theorem firstChildElement_first (pre later : List XMLNode) (e : XMLNode) (name : String)
    (hpre : ∀ n ∈ pre, n.isElementNamed name = false) (he : e.isElementNamed name = true) :
    firstChildElement (pre ++ e :: later) name = some e := by
  unfold firstChildElement
  rw [List.find?_append]
  have : pre.find? (XMLNode.isElementNamed name) = none := by
    rw [List.find?_eq_none]
    intro n hn
    simp [hpre n hn]
  simp [this, List.find?_cons, he]

/-- Claim C6: on a status response of the expected shape whose `tt:PanTilt` element carries the
attributes `x` and `y`, `ExtractAbsolutePosition` returns the number read from `x` as pan and the
number read from `y` as tilt. -/
theorem ExtractAbsolutePosition_attributes {F : Type} [Zero F] (P : Platform F) (status : String)
    (doc : XMLDocument) (e : XMLNode) (xs ys : String) (pan tilt : F)
    (hparse : P.Parse status = some doc)
    (hd : doc.descend ["SOAP-ENV:Envelope", "SOAP-ENV:Body", "tptz:GetStatusResponse",
      "tptz:PTZStatus", "tt:Position", "tt:PanTilt"] = some e)
    (hx : e.Attribute "x" = some xs) (hy : e.Attribute "y" = some ys)
    (hpan : P.ToFloat xs = some pan) (htilt : P.ToFloat ys = some tilt) :
    ExtractAbsolutePosition P status = some { pan := pan, tilt := tilt } := by
  simp [ExtractAbsolutePosition, hparse, hd, hx, hy, ToFloat_read P xs 0 pan hpan,
    ToFloat_read P ys 0 tilt htilt]

theorem ExtractAbsolutePosition_attributes_witness :
    ExtractAbsolutePosition examplePlatform exampleStatus = some { pan := 1 / 2, tilt := -1 / 4 } :=
  ExtractAbsolutePosition_attributes examplePlatform exampleStatus exampleStatusDoc examplePanTilt
    "0.5" "-0.25" (1 / 2) (-1 / 4) (by rfl) (by rfl) (by rfl) (by rfl) (by rfl) (by rfl)

/-- Claim C7: on a configuration-options response of the expected shape, the six bounds are the
numbers read from the texts of `tt:XRange` and `tt:YRange` below
`tt:AbsolutePanTiltPositionSpace` (pan and tilt) and of `tt:XRange` below `tt:PanTiltSpeedSpace`
(speed), `tt:Min` and `tt:Max` each. -/
theorem ExtractAbsolutePTSpace_bounds {F : Type} [Zero F] (P : Platform F)
    (configuration_options : String) (doc : XMLDocument) (spaces abs spd : XMLNode)
    (t1 t2 t3 t4 t5 t6 : String) (PanMin PanMax TiltMin TiltMax SpeedMin SpeedMax : F)
    (hparse : P.Parse configuration_options = some doc)
    (hd : doc.descend ["SOAP-ENV:Envelope", "SOAP-ENV:Body",
      "tptz:GetConfigurationOptionsResponse", "tptz:PTZConfigurationOptions", "tt:Spaces"] =
        some spaces)
    (ha : spaces.FirstChildElement "tt:AbsolutePanTiltPositionSpace" = some abs)
    (hs : spaces.FirstChildElement "tt:PanTiltSpeedSpace" = some spd)
    (h1 : abs.textAt ["tt:XRange", "tt:Min"] = some t1) (v1 : P.ToFloat t1 = some PanMin)
    (h2 : abs.textAt ["tt:XRange", "tt:Max"] = some t2) (v2 : P.ToFloat t2 = some PanMax)
    (h3 : abs.textAt ["tt:YRange", "tt:Min"] = some t3) (v3 : P.ToFloat t3 = some TiltMin)
    (h4 : abs.textAt ["tt:YRange", "tt:Max"] = some t4) (v4 : P.ToFloat t4 = some TiltMax)
    (h5 : spd.textAt ["tt:XRange", "tt:Min"] = some t5) (v5 : P.ToFloat t5 = some SpeedMin)
    (h6 : spd.textAt ["tt:XRange", "tt:Max"] = some t6) (v6 : P.ToFloat t6 = some SpeedMax) :
    ExtractAbsolutePTSpace P configuration_options =
      some { PanMin := PanMin, PanMax := PanMax, TiltMin := TiltMin, TiltMax := TiltMax,
             SpeedMin := SpeedMin, SpeedMax := SpeedMax } := by
  simp [ExtractAbsolutePTSpace, hparse, hd, ha, hs,
    readBound_read P abs "tt:XRange" "tt:Min" t1 0 PanMin h1 v1,
    readBound_read P abs "tt:XRange" "tt:Max" t2 0 PanMax h2 v2,
    readBound_read P abs "tt:YRange" "tt:Min" t3 0 TiltMin h3 v3,
    readBound_read P abs "tt:YRange" "tt:Max" t4 0 TiltMax h4 v4,
    readBound_read P spd "tt:XRange" "tt:Min" t5 0 SpeedMin h5 v5,
    readBound_read P spd "tt:XRange" "tt:Max" t6 0 SpeedMax h6 v6]

theorem ExtractAbsolutePTSpace_bounds_witness :
    ExtractAbsolutePTSpace examplePlatform exampleConfigurationOptions =
      some { PanMin := -1, PanMax := 1, TiltMin := -1 / 4, TiltMax := 1 / 2,
             SpeedMin := 0, SpeedMax := 1 } :=
  ExtractAbsolutePTSpace_bounds examplePlatform exampleConfigurationOptions
    exampleConfigurationOptionsDoc
    (.element "tt:Spaces" [] [exampleAbsoluteSpace, exampleSpeedSpace])
    exampleAbsoluteSpace exampleSpeedSpace "-1.0" "1.0" "-0.25" "0.5" "0.0" "1.0"
    (-1) 1 (-1 / 4) (1 / 2) 0 1
    (by rfl) (by rfl) (by rfl) (by rfl) (by rfl) (by rfl) (by rfl) (by rfl) (by rfl) (by rfl)
    (by rfl) (by rfl) (by rfl) (by rfl) (by rfl) (by rfl)

/-- Claim C8: on a profiles response of the expected shape, `proftoken` is the `token` attribute
of the first `trt:Profiles` element below `trt:GetProfilesResponse` and `ptztoken` the `token`
attribute of the first `tt:PTZConfiguration` child of that same element; the nodes after that
element (`later`) do not enter the result. -/
theorem ExtractFirstProfile_first {F : Type} (P : Platform F) (profiles : String)
    (doc : XMLDocument) (resp prof ptz : XMLNode) (pre later : List XMLNode) (t1 t2 : String)
    (hparse : P.Parse profiles = some doc)
    (hresp : doc.descend ["SOAP-ENV:Envelope", "SOAP-ENV:Body", "trt:GetProfilesResponse"] =
      some resp)
    (hchildren : resp.children = pre ++ prof :: later)
    (hpre : ∀ n ∈ pre, n.isElementNamed "trt:Profiles" = false)
    (hprof : prof.isElementNamed "trt:Profiles" = true)
    (hptz : prof.FirstChildElement "tt:PTZConfiguration" = some ptz)
    (h1 : prof.Attribute "token" = some t1) (h2 : ptz.Attribute "token" = some t2) :
    ExtractFirstProfile P profiles = some { proftoken := t1, ptztoken := t2 } := by
  have hd : doc.descend ["SOAP-ENV:Envelope", "SOAP-ENV:Body", "trt:GetProfilesResponse",
      "trt:Profiles"] = some prof := by
    have := XMLDocument.descend_cons_append doc "SOAP-ENV:Envelope"
      ["SOAP-ENV:Body", "trt:GetProfilesResponse"] ["trt:Profiles"]
    simp only [List.cons_append, List.nil_append] at this
    rw [this, hresp]
    simp [XMLNode.descend, XMLNode.FirstChildElement, hchildren,
      firstChildElement_first pre later prof "trt:Profiles" hpre hprof]
  simp [ExtractFirstProfile, hparse, hd, hptz, h1, h2, WString.ofCStr]

theorem ExtractFirstProfile_first_witness :
    ExtractFirstProfile examplePlatform exampleProfiles =
      some { proftoken := "profile_1", ptztoken := "PTZToken" } :=
  ExtractFirstProfile_first examplePlatform exampleProfiles exampleProfilesDoc
    (.element "trt:GetProfilesResponse" []
      [.element "trt:Profiles" [("token", "profile_1")]
         [.element "tt:PTZConfiguration" [("token", "PTZToken")] []],
       .element "trt:Profiles" [("token", "profile_2")]
         [.element "tt:PTZConfiguration" [("token", "PTZOther")] []]])
    (.element "trt:Profiles" [("token", "profile_1")]
         [.element "tt:PTZConfiguration" [("token", "PTZToken")] []])
    (.element "tt:PTZConfiguration" [("token", "PTZToken")] [])
    []
    [.element "trt:Profiles" [("token", "profile_2")]
         [.element "tt:PTZConfiguration" [("token", "PTZOther")] []]]
    "profile_1" "PTZToken" (by rfl) (by rfl) (by rfl) (by simp) (by rfl) (by rfl) (by rfl) (by rfl)

/-! ## Base64 -/

theorem Renders.congr {n : XMLNode} {s t : String} (h : Renders n s) (e : t = s) :
    Renders n t := e ▸ h

/-- Claim C5: `Request` returns the empty string whenever the status of the POST is anything
other than 200, and the body of the response unchanged when the status is 200; each of the five
commands returns what `Request` returns for the payload that the command sends (`header` is the
security header built in the call). -/
theorem Request_status {F : Type} (self : TC70Control) (P : Platform F) (w : Ambient)
    (http : Transport) (header uri token profile : String) (pan tilt vx vy : F)
    (hh : PackWebServiceSecurity P w self.m_username self.m_password = some header) :
    (∀ payload, (http (self.httpRequest uri payload)).status ≠ HTTP_CODE_OK →
      Request self http uri payload = "") ∧
    (∀ payload, (http (self.httpRequest uri payload)).status = HTTP_CODE_OK →
      Request self http uri payload = (http (self.httpRequest uri payload)).body) ∧
    (∃ payload, GetCapabilities self P w http uri = some (Request self http uri payload)) ∧
    (∃ payload, GetProfiles self P w http uri = some (Request self http uri payload)) ∧
    (∃ payload, GetConfigurationOptions self P w http uri token =
      some (Request self http uri payload)) ∧
    (∃ payload, GetStatus self P w http uri profile = some (Request self http uri payload)) ∧
    (∃ payload, AbsoluteMove self P w http uri profile pan tilt vx vy =
      some (Request self http uri payload)) := by
  refine ⟨?_, ?_, ⟨XMLDeclaration ++ PackSoapEnvelope header PackGetCapabitlities, ?_⟩,
    ⟨XMLDeclaration ++ PackSoapEnvelope header PackGetProfiles, ?_⟩,
    ⟨XMLDeclaration ++ PackSoapEnvelope header (PackGetConfigurationOptions token), ?_⟩,
    ⟨XMLDeclaration ++ PackSoapEnvelope header (PackGetStatus profile), ?_⟩,
    ⟨XMLDeclaration ++ PackSoapEnvelope header (PackAbsoluteMove P profile pan tilt vx vy), ?_⟩⟩
  · intro payload h
    simp [Request, h]
  · intro payload h
    simp [Request, h]
  · simp only [GetCapabilities, hh, Option.bind_eq_bind, Option.some_bind, Option.pure_def]
  · simp only [GetProfiles, hh, Option.bind_eq_bind, Option.some_bind, Option.pure_def]
  · simp only [GetConfigurationOptions, hh, Option.bind_eq_bind, Option.some_bind, Option.pure_def]
  · simp only [GetStatus, hh, Option.bind_eq_bind, Option.some_bind, Option.pure_def]
  · simp only [AbsoluteMove, hh, Option.bind_eq_bind, Option.some_bind, Option.pure_def]

theorem Request_status_witness :
    GetStatus tc70control examplePlatform exampleAmbient (answer exampleStatus) "onvif/PTZ"
        "profile_1" = some exampleStatus ∧
    GetStatus tc70control examplePlatform exampleAmbient
        (fun _ => { status := 404, body := "Not Found" }) "onvif/PTZ" "profile_1" = some "" := by
  obtain ⟨header, hh⟩ := Option.isSome_iff_exists.1
    (show (PackWebServiceSecurity examplePlatform exampleAmbient tc70control.m_username
      tc70control.m_password).isSome = true by rfl)
  constructor
  · obtain ⟨-, h200, -, -, -, ⟨payload, hp⟩, -⟩ :=
      Request_status tc70control examplePlatform exampleAmbient (answer exampleStatus) header
        "onvif/PTZ" "" "profile_1" 0 0 0 0 hh
    rw [hp, h200 payload (by rfl)]
    rfl
  · obtain ⟨h404, -, -, -, -, ⟨payload, hp⟩, -⟩ :=
      Request_status tc70control examplePlatform exampleAmbient
        (fun _ => { status := 404, body := "Not Found" }) header
        "onvif/PTZ" "" "profile_1" 0 0 0 0 hh
    rw [hp, h404 payload (by decide)]

theorem matchLiteral_sound (p text rest : List Char) (h : matchLiteral p text = some rest) :
    text = p ++ rest := by
  induction p generalizing text with
  | nil =>
    cases text <;> simp [matchLiteral] at h <;> simp [h]
  | cons c cs ih =>
    cases text with
    | nil => simp [matchLiteral] at h
    | cons d ds =>
      simp only [matchLiteral] at h
      split at h
      · rename_i hcd
        subst hcd
        simp [ih ds h]
      · cases h

theorem matchSlashGreedy_some (text group2 : List Char) (h : matchSlashGreedy text = some group2) :
    text = '/' :: group2 ∧ group2.all (fun x => !isLineTerminator x) = true := by
  cases text with
  | nil => simp [matchSlashGreedy] at h
  | cons c rest =>
    simp only [matchSlashGreedy] at h
    split at h
    · rename_i hc
      cases h
      exact ⟨by rw [hc.1], hc.2⟩
    · cases h

theorem matchLazy_noTerminator (text group1 g p : List Char)
    (h : matchLazy group1 text = some (g, p)) :
    text.all (fun x => !isLineTerminator x) = true := by
  induction text generalizing group1 with
  | nil => simp [matchLazy] at h
  | cons c rest ih =>
    simp only [matchLazy] at h
    cases hs : matchSlashGreedy (c :: rest) with
    | some group2 =>
      obtain ⟨e, hall⟩ := matchSlashGreedy_some _ _ hs
      rw [e]
      simpa [isLineTerminator] using hall
    | none =>
      rw [hs] at h
      simp only at h
      split at h
      · cases h
      · rename_i hc
        have := ih _ h
        simp [List.all_cons, this, hc]

theorem matchLazy_sound (text group1 g p : List Char)
    (h : matchLazy group1 text = some (g, p)) :
    ∃ host, g = group1 ++ host ∧ text = host ++ '/' :: p ∧
      host.all (fun c => c != '/' && !isLineTerminator c) = true ∧
      p.all (fun c => !isLineTerminator c) = true := by
  induction text generalizing group1 with
  | nil => simp [matchLazy] at h
  | cons c rest ih =>
    simp only [matchLazy] at h
    cases hs : matchSlashGreedy (c :: rest) with
    | some group2 =>
      rw [hs] at h
      simp only [Option.some.injEq, Prod.mk.injEq] at h
      obtain ⟨e, hall⟩ := matchSlashGreedy_some _ _ hs
      obtain ⟨rfl, rfl⟩ := h
      exact ⟨[], by simp, by simpa using e, by simp, hall⟩
    | none =>
      rw [hs] at h
      simp only at h
      split at h
      · cases h
      · rename_i hc
        have hrest := matchLazy_noTerminator _ _ _ _ h
        have hne : c ≠ '/' := by
          intro hc'
          simp [matchSlashGreedy, hc', hrest] at hs
        obtain ⟨host, hg, ht, hh, hp⟩ := ih _ h
        refine ⟨c :: host, by simp [hg], by simp [ht], ?_, hp⟩
        simp [List.all_cons, hh, hne, hc]

theorem regex_match_sound (fullpath host path : String)
    (h : regex_match fullpath = some (host, path)) :
    fullpath = "http://" ++ host ++ "/" ++ path ∧ isHost host = true ∧ isPath path = true := by
  unfold regex_match at h
  cases h1 : matchLiteral "http://".data fullpath.data with
  | none => simp [h1] at h
  | some rest =>
    rw [h1] at h
    simp only at h
    cases h2 : matchLazy [] rest with
    | none => simp [h2] at h
    | some gp =>
      obtain ⟨g, p⟩ := gp
      rw [h2] at h
      simp only [Option.some.injEq, Prod.mk.injEq] at h
      obtain ⟨rfl, rfl⟩ := h
      obtain ⟨hst, hg, ht, hh, hp⟩ := matchLazy_sound _ _ _ _ h2
      have e := matchLiteral_sound _ _ _ h1
      simp only [List.nil_append] at hg
      subst hg
      refine ⟨?_, hh, hp⟩
      apply String.ext
      rw [e, ht]
      simp [String.data_append]

theorem assignPath_isPathOf (fullpath : String) : IsPathOf fullpath (assignPath "" fullpath) := by
  unfold assignPath
  cases h : regex_match fullpath with
  | none =>
    refine Or.inl ⟨rfl, ?_⟩
    rintro ⟨host, rest, hh, hp, e⟩
    rw [e, regex_match_url host rest hh hp] at h
    cases h
  | some m =>
    obtain ⟨host, path⟩ := m
    obtain ⟨e, hh, hp⟩ := regex_match_sound _ _ _ h
    exact Or.inr ⟨host, hh, hp, e⟩

/-- Claim C14, as amended: on every input on which `ExtractUris` returns, either the parser
rejected the input and the three fields are empty, or each of `media`, `events` and `ptz` comes
from the `tt:XAddr` text of its own service: when that text is `http://` host `/` rest (host
without `/`), the field is that rest, the scheme and the host stripped at the first `/` after the
scheme, and otherwise the field is empty.  Such a field holds no line terminator; it may itself
begin with `http://`. -/
theorem ExtractUris_fields {F : Type} (P : Platform F) (s : String) (uris : UriList)
    (h : ExtractUris P s = some uris) :
    (P.Parse s = none ∧ uris.media = "" ∧ uris.events = "" ∧ uris.ptz = "") ∨
    ∃ doc tm te tp, P.Parse s = some doc ∧
      doc.textAt ["SOAP-ENV:Envelope", "SOAP-ENV:Body", "tds:GetCapabilitiesResponse",
        "tds:Capabilities", "tt:Media", "tt:XAddr"] = some tm ∧
      doc.textAt ["SOAP-ENV:Envelope", "SOAP-ENV:Body", "tds:GetCapabilitiesResponse",
        "tds:Capabilities", "tt:Events", "tt:XAddr"] = some te ∧
      doc.textAt ["SOAP-ENV:Envelope", "SOAP-ENV:Body", "tds:GetCapabilitiesResponse",
        "tds:Capabilities", "tt:PTZ", "tt:XAddr"] = some tp ∧
      IsPathOf tm uris.media ∧ IsPathOf te uris.events ∧ IsPathOf tp uris.ptz := by
  unfold ExtractUris at h
  cases hp : P.Parse s with
  | none =>
    rw [hp] at h
    simp only [Option.some.injEq] at h
    subst h
    exact Or.inl ⟨rfl, rfl, rfl, rfl⟩
  | some doc =>
    rw [hp] at h
    simp only [ExtractUris.media, ExtractUris.events, ExtractUris.ptz, Option.bind_eq_bind,
      Option.pure_def, Option.bind_eq_some, Option.some.injEq] at h
    obtain ⟨u1, ⟨x1, d1, t1, g1, rfl⟩, u2, ⟨x2, d2, t2, g2, rfl⟩, u3, ⟨x3, d3, t3, g3, rfl⟩,
      rfl⟩ := h
    refine Or.inr ⟨doc, t1, t2, t3, rfl, ?_, ?_, ?_, assignPath_isPathOf t1,
      assignPath_isPathOf t2, assignPath_isPathOf t3⟩
    · simp [XMLDocument.textAt, d1, g1]
    · simp [XMLDocument.textAt, d2, g2]
    · simp [XMLDocument.textAt, d3, g3]

theorem ExtractUris_fields_witness :
    (examplePlatform.Parse exampleCapabilities = none ∧ "onvif/Media" = "" ∧
      "onvif/Events" = "" ∧ "onvif/PTZ" = "") ∨
    ∃ doc tm te tp, examplePlatform.Parse exampleCapabilities = some doc ∧
      doc.textAt ["SOAP-ENV:Envelope", "SOAP-ENV:Body", "tds:GetCapabilitiesResponse",
        "tds:Capabilities", "tt:Media", "tt:XAddr"] = some tm ∧
      doc.textAt ["SOAP-ENV:Envelope", "SOAP-ENV:Body", "tds:GetCapabilitiesResponse",
        "tds:Capabilities", "tt:Events", "tt:XAddr"] = some te ∧
      doc.textAt ["SOAP-ENV:Envelope", "SOAP-ENV:Body", "tds:GetCapabilitiesResponse",
        "tds:Capabilities", "tt:PTZ", "tt:XAddr"] = some tp ∧
      IsPathOf tm "onvif/Media" ∧ IsPathOf te "onvif/Events" ∧ IsPathOf tp "onvif/PTZ" :=
  ExtractUris_fields examplePlatform exampleCapabilities
    { media := "onvif/Media", events := "onvif/Events", ptz := "onvif/PTZ" } (by rfl)

/-- Claim C14 fails as stated: for the PTZ address `http://10.0.0.5/http://10.0.0.6/onvif/PTZ`
the field `ptz` is `http://10.0.0.6/onvif/PTZ`, which begins with `http://`. -/
theorem ExtractUris_nested_url :
    ExtractUris examplePlatform exampleCapabilitiesOdd =
      some { media := "", events := "", ptz := "http://" ++ "10.0.0.6/onvif/PTZ" } := by
  rfl

/-- Claim C15, as amended: on a parseable capabilities response that holds the `tt:XAddr` text
of all three services, each of `media`, `events` and `ptz` is decided by its own address alone:
it is the path of that address when the address has the form `http://` host `/` path, and the
empty string when it has not (as for an `https` address or an address without `/` after the
host). -/
theorem ExtractUris_each_field {F : Type} (P : Platform F) (capabilities : String)
    (doc : XMLDocument) (xm xe xp : XMLNode) (tm te tp : String)
    (hparse : P.Parse capabilities = some doc)
    (hm : doc.descend ["SOAP-ENV:Envelope", "SOAP-ENV:Body", "tds:GetCapabilitiesResponse",
      "tds:Capabilities", "tt:Media", "tt:XAddr"] = some xm) (htm : xm.GetText = some tm)
    (he : doc.descend ["SOAP-ENV:Envelope", "SOAP-ENV:Body", "tds:GetCapabilitiesResponse",
      "tds:Capabilities", "tt:Events", "tt:XAddr"] = some xe) (hte : xe.GetText = some te)
    (hp : doc.descend ["SOAP-ENV:Envelope", "SOAP-ENV:Body", "tds:GetCapabilitiesResponse",
      "tds:Capabilities", "tt:PTZ", "tt:XAddr"] = some xp) (htp : xp.GetText = some tp) :
    ∃ uris, ExtractUris P capabilities = some uris ∧
      uris.media = (match regex_match tm with | some m => m.2 | none => "") ∧
      uris.events = (match regex_match te with | some m => m.2 | none => "") ∧
      uris.ptz = (match regex_match tp with | some m => m.2 | none => "") ∧
      regex_match "https://10.0.0.5/onvif/Media" = none ∧
      regex_match "http://10.0.0.5:2020" = none :=
  ⟨_, ExtractUris_eq P capabilities doc xm xe xp tm te tp hparse hm htm he hte hp htp,
    by rfl, by rfl, by rfl, by rfl, by rfl⟩

theorem ExtractUris_each_field_witness :
    ExtractUris examplePlatform exampleCapabilitiesOdd =
      some { media := "", events := "", ptz := "http://10.0.0.6/onvif/PTZ" } := by
  obtain ⟨uris, h, h1, h2, h3, -, -⟩ := ExtractUris_each_field examplePlatform
    exampleCapabilitiesOdd exampleCapabilitiesOddDoc
    (.element "tt:XAddr" [] [.text "https://10.0.0.5/onvif/Media"])
    (.element "tt:XAddr" [] [.text "http://10.0.0.5:2020"])
    (.element "tt:XAddr" [] [.text "http://10.0.0.5/http://10.0.0.6/onvif/PTZ"])
    "https://10.0.0.5/onvif/Media" "http://10.0.0.5:2020"
    "http://10.0.0.5/http://10.0.0.6/onvif/PTZ"
    (by rfl) (by rfl) (by rfl) (by rfl) (by rfl) (by rfl) (by rfl)
  rw [h]
  cases uris
  simp only at h1 h2 h3
  rw [h1, h2, h3]
  rfl

/-- Claim C15 fails as stated: on a response without the `tt:Media` entry the first block of
`ExtractUris` calls `FirstChildElement` through the null pointer, and `ptz` is not extracted
although the response holds the PTZ address. -/
theorem ExtractUris_missing_media :
    ExtractUris examplePlatform exampleCapabilitiesNoMedia = none ∧
    (examplePlatform.Parse exampleCapabilitiesNoMedia).map (fun doc =>
      (doc.descend ["SOAP-ENV:Envelope", "SOAP-ENV:Body", "tds:GetCapabilitiesResponse",
        "tds:Capabilities", "tt:PTZ", "tt:XAddr"]).bind XMLNode.GetText) =
      some (some "http://10.0.0.5:2020/onvif/PTZ") := by
  constructor <;> rfl

/-! ## The sketch -/

theorem getRotationValue_mem {F : Type} [LinearOrderedField F]
    (angle_deg range_deg range_max range_min : F) (h : range_min ≤ range_max) :
    range_min ≤ getRotationValue angle_deg range_deg range_max range_min ∧
    getRotationValue angle_deg range_deg range_max range_min ≤ range_max := by
  unfold getRotationValue
  simp only
  split_ifs with h1 h2
  · exact ⟨h, le_refl _⟩
  · exact ⟨le_refl _, h⟩
  · exact ⟨not_lt.1 h2, not_lt.1 h1⟩

/-- Claim C16: for bounds with `range_min ≤ range_max`, `getRotationValue` lies between
`range_min` and `range_max`; it is the scaled value `angle_deg / range_deg * (range_max -
range_min)` when that lies within the bounds, `range_max` when the scaled value is above
`range_max`, and `range_min` when it is below `range_min`.  Hence the pan and tilt that
`updateTC70` passes to `AbsoluteMove` lie inside the pan and tilt ranges of `g_ptspace`. -/
theorem getRotationValue_clamped {F : Type} [LinearOrderedField F]
    (angle_deg range_deg range_max range_min : F) (h : range_min ≤ range_max) :
    (range_min ≤ getRotationValue angle_deg range_deg range_max range_min ∧
      getRotationValue angle_deg range_deg range_max range_min ≤ range_max) ∧
    (range_min ≤ angle_deg / range_deg * (range_max - range_min) →
      angle_deg / range_deg * (range_max - range_min) ≤ range_max →
      getRotationValue angle_deg range_deg range_max range_min =
        angle_deg / range_deg * (range_max - range_min)) ∧
    (range_max < angle_deg / range_deg * (range_max - range_min) →
      getRotationValue angle_deg range_deg range_max range_min = range_max) ∧
    (angle_deg / range_deg * (range_max - range_min) < range_min →
      getRotationValue angle_deg range_deg range_max range_min = range_min) ∧
    (∀ (P : Platform F) (w : Ambient) (http : Transport) (g : Globals F) (fuel prev curr : Nat)
        (posture : Posture F) (prev' : Nat) (response : String),
      g.g_ptspace.PanMin ≤ g.g_ptspace.PanMax → g.g_ptspace.TiltMin ≤ g.g_ptspace.TiltMax →
      updateTC70 P w http g fuel prev curr posture = some (prev', some response) →
      ∃ pan tilt : F,
        AbsoluteMove tc70control P w http g.g_uris.ptz g.g_prof.proftoken pan tilt 1 1 =
          some response ∧
        g.g_ptspace.PanMin ≤ pan ∧ pan ≤ g.g_ptspace.PanMax ∧
        g.g_ptspace.TiltMin ≤ tilt ∧ tilt ≤ g.g_ptspace.TiltMax) := by
  refine ⟨getRotationValue_mem _ _ _ _ h, ?_, ?_, ?_, ?_⟩
  · intro h1 h2
    simp [getRotationValue, not_lt.2 h1, not_lt.2 h2]
  · intro h1
    simp [getRotationValue, h1]
  · intro h1
    have : ¬ range_max < angle_deg / range_deg * (range_max - range_min) :=
      not_lt.2 (le_trans (le_of_lt h1) h)
    simp [getRotationValue, h1, this]
  · intro P w http g fuel prev curr posture prev' response hpan htilt hu
    unfold updateTC70 at hu
    split at hu
    · simp at hu
    · simp only [updateTC70.rotation, Option.bind_eq_bind, Option.pure_def, Option.bind_eq_some,
        Option.some.injEq, Prod.mk.injEq] at hu
      obtain ⟨r, ⟨tmp, -, rfl⟩, resp, hresp, -, rfl⟩ := hu
      exact ⟨_, _, hresp, (getRotationValue_mem _ _ _ _ hpan).1,
        (getRotationValue_mem _ _ _ _ hpan).2, (getRotationValue_mem _ _ _ _ htilt).1,
        (getRotationValue_mem _ _ _ _ htilt).2⟩

theorem getRotationValue_clamped_witness :
    getRotationValue (90 : ℚ) 360 1 (-1) = 1 / 2 ∧ getRotationValue (270 : ℚ) 360 1 (-1) = 1 := by
  obtain ⟨-, h1, -, -, -⟩ := getRotationValue_clamped (90 : ℚ) 360 1 (-1) (by norm_num)
  obtain ⟨-, -, h2, -, -⟩ := getRotationValue_clamped (270 : ℚ) 360 1 (-1) (by norm_num)
  refine ⟨?_, h2 (by norm_num)⟩
  rw [h1 (by norm_num) (by norm_num)]
  norm_num

/-- Claim C17, a defect of the code: `calcSHA1` compares the return code of `mbedtls_md` with
`SHA1_LENGTH`.  When the hash primitive succeeds, its return code is 0 and the output buffer
holds the 20 bytes of the digest, and `calcSHA1` returns `false`. -/
theorem calcSHA1_false {F : Type} (P : Platform F) (ibuf : List Byte) (ilen : Nat)
    (hlen : ilen ≤ ibuf.length) (hok : (P.mbedtls_md (ibuf.take ilen)).1 = 0) :
    calcSHA1 P ibuf ilen = some (false, P.SHA1 (ibuf.take ilen)) ∧
    (P.SHA1 (ibuf.take ilen)).length = SHA1_LENGTH := by
  refine ⟨?_, P.md_size _⟩
  simp [calcSHA1, hlen, hok, Platform.SHA1, SHA1_LENGTH]

theorem calcSHA1_false_witness :
    calcSHA1 examplePlatform (WString.bytes "abc") 3 =
      some (false, examplePlatform.SHA1 (WString.bytes "abc")) :=
  (calcSHA1_false examplePlatform (WString.bytes "abc") 3 (by decide) (by rfl)).1

/-- Claim C20, a defect of the code: the body of `operator!=` is `return !(*this != rhs);`,
a call of `operator!=` itself.  Whatever depth of calls is allowed, the comparison does not
return. -/
theorem Posture_ne_diverges {F : Type} [LinearOrderedField F] (fuel : Nat) (a b : Posture F) :
    Posture.ne fuel a b = none := by
  induction fuel with
  | zero => rfl
  | succ n ih => simp [Posture.ne, ih]

namespace Posture

variable {F : Type} [LinearOrderedField F]

theorem loop1_spec (fuel : Nat) (deg r : F) (h : normalize.loop1 fuel deg = some r) :
    r < 180 ∧ (deg < 180 → r = deg) ∧ (180 ≤ deg → -180 ≤ r) ∧ ∃ k : ℤ, r = deg - 360 * k := by
  induction fuel generalizing deg with
  | zero => simp [normalize.loop1] at h
  | succ n ih =>
    simp only [normalize.loop1] at h
    split at h
    · rename_i hge
      obtain ⟨h1, h2, h3, k, hk⟩ := ih _ h
      refine ⟨h1, fun hlt => absurd hge (not_le.2 hlt), fun _ => ?_, k + 1, ?_⟩
      · by_cases hc : deg - 360 < 180
        · rw [h2 hc]; linarith
        · exact h3 (not_lt.1 hc)
      · rw [hk]; push_cast; ring
    · rename_i hlt
      simp only [Option.some.injEq] at h
      subst h
      exact ⟨not_le.1 hlt, fun _ => rfl, fun hge => absurd hge hlt, 0, by simp⟩

theorem loop2_spec (fuel : Nat) (deg r : F) (h : normalize.loop2 fuel deg = some r) :
    -180 ≤ r ∧ (-180 ≤ deg → r = deg) ∧ (deg < -180 → r < 180) ∧ ∃ k : ℤ, r = deg - 360 * k := by
  induction fuel generalizing deg with
  | zero => simp [normalize.loop2] at h
  | succ n ih =>
    simp only [normalize.loop2] at h
    split at h
    · rename_i hlt
      obtain ⟨h1, h2, h3, k, hk⟩ := ih _ h
      refine ⟨h1, fun hge => absurd hlt (not_lt.2 hge), fun _ => ?_, k - 1, ?_⟩
      · by_cases hc : -180 ≤ deg + 360
        · rw [h2 hc]; linarith
        · exact h3 (not_le.1 hc)
      · rw [hk]; push_cast; ring
    · rename_i hge
      simp only [Option.some.injEq] at h
      subst h
      exact ⟨not_lt.1 hge, fun _ => rfl, fun hlt => absurd hlt hge, 0, by simp⟩

theorem normalize_spec (fuel : Nat) (deg r : F) (h : normalize fuel deg = some r) :
    -180 ≤ r ∧ r < 180 ∧ ∃ k : ℤ, r = deg - 360 * k := by
  simp only [normalize, Option.bind_eq_bind, Option.pure_def, Option.bind_eq_some,
    Option.some.injEq, exists_eq_right] at h
  obtain ⟨d, h1, h2⟩ := h
  obtain ⟨a1, a2, a3, k1, hk1⟩ := loop1_spec fuel deg d h1
  obtain ⟨b1, b2, b3, k2, hk2⟩ := loop2_spec fuel d r h2
  refine ⟨b1, ?_, k1 + k2, ?_⟩
  · by_cases hc : -180 ≤ d
    · rw [b2 hc]; exact a1
    · exact b3 (not_le.1 hc)
  · rw [hk2, hk1]; push_cast; ring

theorem loop1_terminates (n fuel : Nat) (deg : F) (hd : deg < 180 + 360 * n) (hf : n < fuel) :
    ∃ r, normalize.loop1 fuel deg = some r := by
  induction n generalizing deg fuel with
  | zero =>
    obtain ⟨f, rfl⟩ := Nat.exists_eq_succ_of_ne_zero (Nat.pos_iff_ne_zero.1 hf)
    have : ¬ deg ≥ 180 := by simpa using hd
    exact ⟨deg, by simp [normalize.loop1, this]⟩
  | succ n ih =>
    have hpos : fuel ≠ 0 := by omega
    obtain ⟨f, rfl⟩ := Nat.exists_eq_succ_of_ne_zero hpos
    simp only [normalize.loop1]
    split
    · exact ih f (deg - 360) (by push_cast at hd; linarith) (by omega)
    · exact ⟨deg, rfl⟩

theorem loop2_terminates (n fuel : Nat) (deg : F) (hd : -180 - 360 * n ≤ deg) (hf : n < fuel) :
    ∃ r, normalize.loop2 fuel deg = some r := by
  induction n generalizing deg fuel with
  | zero =>
    obtain ⟨f, rfl⟩ := Nat.exists_eq_succ_of_ne_zero (Nat.pos_iff_ne_zero.1 hf)
    have : ¬ deg < -180 := by simpa using hd
    exact ⟨deg, by simp [normalize.loop2, this]⟩
  | succ n ih =>
    have hpos : fuel ≠ 0 := by omega
    obtain ⟨f, rfl⟩ := Nat.exists_eq_succ_of_ne_zero hpos
    simp only [normalize.loop2]
    split
    · exact ih f (deg + 360) (by push_cast at hd; linarith) (by omega)
    · exact ⟨deg, rfl⟩

theorem normalize_terminates [FloorRing F] (deg : F) :
    ∃ N, ∀ fuel, N ≤ fuel → ∃ r, normalize fuel deg = some r := by
  refine ⟨⌈|deg| / 360⌉₊ + 2, fun fuel hf => ?_⟩
  have hc : |deg| / 360 ≤ (⌈|deg| / 360⌉₊ : F) := Nat.le_ceil _
  have hc' : |deg| ≤ 360 * (⌈|deg| / 360⌉₊ : F) := by
    have := (div_le_iff₀ (by norm_num : (0 : F) < 360)).1 hc
    linarith
  have h1 : deg < 180 + 360 * ((⌈|deg| / 360⌉₊ : ℕ) : F) := by
    have := le_abs_self deg
    linarith
  obtain ⟨d, hd⟩ := loop1_terminates ⌈|deg| / 360⌉₊ fuel deg h1 (by omega)
  obtain ⟨a1, a2, a3, k, hk⟩ := loop1_spec fuel deg d hd
  have h2 : -180 - 360 * (((⌈|deg| / 360⌉₊ + 1 : ℕ)) : F) ≤ d := by
    by_cases hlt : deg < 180
    · rw [a2 hlt]
      have := neg_abs_le deg
      push_cast
      linarith
    · have := a3 (not_lt.1 hlt)
      have hn : (0 : F) ≤ (⌈|deg| / 360⌉₊ : F) := Nat.cast_nonneg _
      push_cast
      linarith
  obtain ⟨r, hr⟩ := loop2_terminates (⌈|deg| / 360⌉₊ + 1) fuel d h2 (by omega)
  exact ⟨r, by simp [normalize, hd, hr]⟩

theorem ctor_spec (fuel : Nat) (r p y : F) (post : Posture F)
    (h : ctor fuel r p y = some post) :
    (-180 ≤ post.roll_deg ∧ post.roll_deg < 180 ∧ ∃ k : ℤ, post.roll_deg = r - 360 * k) ∧
    (-180 ≤ post.pitch_deg ∧ post.pitch_deg < 180 ∧ ∃ k : ℤ, post.pitch_deg = p - 360 * k) ∧
    (-180 ≤ post.yaw_deg ∧ post.yaw_deg < 180 ∧ ∃ k : ℤ, post.yaw_deg = y - 360 * k) := by
  simp only [ctor, Option.bind_eq_bind, Option.pure_def, Option.bind_eq_some,
    Option.some.injEq] at h
  obtain ⟨a, ha, b, hb, c, hc, rfl⟩ := h
  exact ⟨normalize_spec fuel r a ha, normalize_spec fuel p b hb, normalize_spec fuel y c hc⟩

theorem ctor_terminates [FloorRing F] (r p y : F) :
    ∃ N, ∀ fuel, N ≤ fuel → ∃ post, ctor fuel r p y = some post := by
  obtain ⟨n1, h1⟩ := normalize_terminates r
  obtain ⟨n2, h2⟩ := normalize_terminates p
  obtain ⟨n3, h3⟩ := normalize_terminates y
  refine ⟨n1 + n2 + n3, fun fuel hf => ?_⟩
  obtain ⟨a, ha⟩ := h1 fuel (by omega)
  obtain ⟨b, hb⟩ := h2 fuel (by omega)
  obtain ⟨c, hc⟩ := h3 fuel (by omega)
  exact ⟨{ roll_deg := a, pitch_deg := b, yaw_deg := c }, by simp [ctor, ha, hb, hc]⟩

end Posture

theorem isEmpty_false_of_not {s : String} (h : ¬ WString.isEmpty s = true) :
    WString.isEmpty s = false := by
  simpa using h

/-- Claim C18, as amended: `initTC70` returns exactly in the following five cases, each fixed by
what the transport answers and by what the extractors return.  The first response is empty: it
returns `false`, the globals unchanged, with no extractor called and no further request.  The
first response is non-empty, `ExtractUris` returns on it and the response to `GetProfiles` (sent
to the extracted media URI) is empty: it returns `false` with only `g_uris` set.  Likewise for
an empty third response (only `g_uris` and `g_prof` set) and an empty fourth response (the
three globals set, `ExtractAbsolutePosition` not called).  All four responses are non-empty and
all four extractors return: it returns `true`.  In every other case, which is a non-empty
response on which the extractor dereferences a null pointer or a header that does not fit its
buffer, `initTC70` does not return. -/
theorem initTC70_value {F : Type} [Zero F] (P : Platform F) (w : Nat → Ambient)
    (http : Nat → Transport) (g : Globals F) (r : InitResult F) :
    initTC70 P w http g = some r ↔
      ∃ c, GetCapabilities tc70control P (w 0) (http 0) "onvif/device_service" = some c ∧
        ((WString.isEmpty c = true ∧
            r = { value := false, globals := g, responses := [c] }) ∨
         (WString.isEmpty c = false ∧ ∃ u, ExtractUris P c = some u ∧
          ∃ p, GetProfiles tc70control P (w 1) (http 1) u.media = some p ∧
           ((WString.isEmpty p = true ∧
               r = { value := false, globals := { g with g_uris := u },
                     responses := [c, p] }) ∨
            (WString.isEmpty p = false ∧ ∃ pf, ExtractFirstProfile P p = some pf ∧
             ∃ o, GetConfigurationOptions tc70control P (w 2) (http 2) u.ptz pf.ptztoken =
                 some o ∧
              ((WString.isEmpty o = true ∧
                  r = { value := false, globals := { g with g_uris := u, g_prof := pf },
                        responses := [c, p, o] }) ∨
               (WString.isEmpty o = false ∧ ∃ sp, ExtractAbsolutePTSpace P o = some sp ∧
                ∃ st, GetStatus tc70control P (w 3) (http 3) u.ptz pf.proftoken = some st ∧
                 ((WString.isEmpty st = true ∧
                     r = { value := false,
                           globals := { g with g_uris := u, g_prof := pf, g_ptspace := sp },
                           responses := [c, p, o, st] }) ∨
                  (WString.isEmpty st = false ∧
                     (ExtractAbsolutePosition P st).isSome = true ∧
                     r = { value := true,
                           globals := { g with g_uris := u, g_prof := pf, g_ptspace := sp },
                           responses := [c, p, o, st] })))))))) := by
  constructor
  · intro h
    unfold initTC70 at h
    obtain ⟨c, hc, h⟩ := Option.bind_eq_some.1 h
    refine ⟨c, hc, ?_⟩
    split at h
    · rename_i e1
      simp only [Option.pure_def, Option.some.injEq] at h
      exact Or.inl ⟨e1, h.symm⟩
    · rename_i e1
      obtain ⟨u, hu, h⟩ := Option.bind_eq_some.1 h
      obtain ⟨p, hp, h⟩ := Option.bind_eq_some.1 h
      refine Or.inr ⟨isEmpty_false_of_not e1, u, hu, p, hp, ?_⟩
      split at h
      · rename_i e2
        simp only [Option.pure_def, Option.some.injEq] at h
        exact Or.inl ⟨e2, h.symm⟩
      · rename_i e2
        obtain ⟨pf, hpf, h⟩ := Option.bind_eq_some.1 h
        obtain ⟨o, ho, h⟩ := Option.bind_eq_some.1 h
        refine Or.inr ⟨isEmpty_false_of_not e2, pf, hpf, o, ho, ?_⟩
        split at h
        · rename_i e3
          simp only [Option.pure_def, Option.some.injEq] at h
          exact Or.inl ⟨e3, h.symm⟩
        · rename_i e3
          obtain ⟨sp, hsp, h⟩ := Option.bind_eq_some.1 h
          obtain ⟨st, hst, h⟩ := Option.bind_eq_some.1 h
          refine Or.inr ⟨isEmpty_false_of_not e3, sp, hsp, st, hst, ?_⟩
          split at h
          · rename_i e4
            simp only [Option.pure_def, Option.some.injEq] at h
            exact Or.inl ⟨e4, h.symm⟩
          · rename_i e4
            obtain ⟨pos, hpos, h⟩ := Option.bind_eq_some.1 h
            simp only [Option.pure_def, Option.some.injEq] at h
            exact Or.inr ⟨isEmpty_false_of_not e4, by simp [hpos], h.symm⟩
  · rintro ⟨c, hc, h⟩
    unfold initTC70
    rw [hc]
    simp only [Option.bind_eq_bind, Option.some_bind, Option.pure_def]
    rcases h with ⟨e1, rfl⟩ | ⟨e1, u, hu, p, hp, h⟩
    · simp [e1]
    · simp only [e1, Bool.false_eq_true, if_false, hu, Option.some_bind, hp]
      rcases h with ⟨e2, rfl⟩ | ⟨e2, pf, hpf, o, ho, h⟩
      · simp [e2]
      · simp only [e2, Bool.false_eq_true, if_false, hpf, Option.some_bind, ho]
        rcases h with ⟨e3, rfl⟩ | ⟨e3, sp, hsp, st, hst, h⟩
        · simp [e3]
        · simp only [e3, Bool.false_eq_true, if_false, hsp, Option.some_bind, hst]
          rcases h with ⟨e4, rfl⟩ | ⟨e4, hpos, rfl⟩
          · simp [e4]
          · obtain ⟨pos, hpos⟩ := Option.isSome_iff_exists.1 hpos
            simp [e4, hpos]

theorem initTC70_value_witness :
    initTC70 examplePlatform (fun _ => exampleAmbient) exampleCamera {} =
      some { value := true,
             globals :=
               { g_uris := { media := "onvif/Media", events := "onvif/Events", ptz := "onvif/PTZ" },
                 g_prof := { proftoken := "profile_1", ptztoken := "PTZToken" },
                 g_ptspace := { PanMin := -1, PanMax := 1, TiltMin := -1 / 4, TiltMax := 1 / 2,
                                SpeedMin := 0, SpeedMax := 1 } },
             responses := [exampleCapabilities, exampleProfiles, exampleConfigurationOptions,
               exampleStatus] } :=
  (initTC70_value examplePlatform (fun _ => exampleAmbient) exampleCamera {} _).2
    ⟨exampleCapabilities, by rfl, Or.inr ⟨by rfl,
      { media := "onvif/Media", events := "onvif/Events", ptz := "onvif/PTZ" }, by rfl,
      exampleProfiles, by rfl, Or.inr ⟨by rfl,
        { proftoken := "profile_1", ptztoken := "PTZToken" }, by rfl,
        exampleConfigurationOptions, by rfl, Or.inr ⟨by rfl,
          { PanMin := -1, PanMax := 1, TiltMin := -1 / 4, TiltMax := 1 / 2,
            SpeedMin := 0, SpeedMax := 1 }, by rfl,
          exampleStatus, by rfl, Or.inr ⟨by rfl, by rfl, by rfl⟩⟩⟩⟩⟩

/-- Claim C18 fails as stated: a camera that answers every request with the status 200 and the
non-empty body `<a/>` gives four non-empty responses, yet `initTC70` does not return `true`:
`ExtractUris` dereferences a null pointer on the first response. -/
theorem initTC70_malformed_response :
    initTC70 examplePlatform (fun _ => exampleAmbient) (fun _ => answer exampleOther) {} = none ∧
    WString.isEmpty exampleOther = false := by
  constructor <;> rfl

/-! ## The bound of the concatenation buffer -/

/-- Claim C21, a defect of the code: `GenerateSecurityParameters` checks no length.  Its three
copies stay inside the 128-byte array exactly when 16 + |created| + |password| ≤ 128, which for
a timestamp of 24 bytes is |password| ≤ 88; for every longer password the third `memcpy` writes
past the end of the array.  With the timestamp of the example a password of 88 bytes is still
handled and one of 89 bytes is not. -/
theorem GenerateSecurityParameters_bound {F : Type} (P : Platform F) (w : Ambient)
    (plain_password : String) :
    ((GenerateSecurityParameters P w plain_password).isSome = true ↔
      NONCE_LENGTH + WString.length w.strftime + WString.length plain_password ≤ 128) ∧
    (WString.length w.strftime = 24 →
      ((GenerateSecurityParameters P w plain_password).isSome = true ↔
        WString.length plain_password ≤ 88)) ∧
    (∀ buf : List Byte, buf.length = 128 →
      128 < NONCE_LENGTH + WString.length w.strftime + WString.length plain_password →
      memcpy buf (NONCE_LENGTH + WString.length w.strftime) (WString.c_str plain_password)
        (WString.length plain_password) = none) ∧
    WString.length exampleAmbient.strftime = 24 ∧ WString.length password89 = 89 ∧
    GenerateSecurityParameters examplePlatform exampleAmbient password89 = none ∧
    (GenerateSecurityParameters examplePlatform exampleAmbient password88).isSome = true := by
  have key : (GenerateSecurityParameters P w plain_password).isSome = true ↔
      NONCE_LENGTH + WString.length w.strftime + WString.length plain_password ≤ 128 := by
    by_cases hfit : NONCE_LENGTH + WString.length w.strftime + WString.length plain_password ≤ 128
    · simp [gsp_fits P w plain_password hfit, hfit]
    · simp [gsp_overflow P w plain_password (by omega), hfit]
  refine ⟨key, ?_, ?_, by decide, by decide, ?_, ?_⟩
  · intro h24
    rw [key, h24]
    simp only [NONCE_LENGTH]
    omega
  · intro buf hbuf hover
    exact memcpy_eq_none buf _ _ _ (by omega)
  · exact gsp_overflow examplePlatform exampleAmbient password89 (by decide)
  · rw [gsp_fits examplePlatform exampleAmbient password88 (by decide)]
    rfl

/-! ## `normalize` in binary32 arithmetic -/

theorem loop1_binary32 (fuel : Nat) :
    Posture.normalize.loop1 fuel (10000000000 : Binary32) = none := by
  induction fuel with
  | zero => rfl
  | succ n ih =>
    have h1 : (10000000000 : Binary32) ≥ 180 := by decide
    have h2 : (10000000000 : Binary32) - 360 = 10000000000 := by decide
    rw [Posture.normalize.loop1, if_pos h1, h2, ih]

/-- Claim C19 fails as stated: in the binary32 arithmetic of the ESP32 the finite value 1e10 is
exactly representable and `1e10 - 360` rounds back to 1e10 (the spacing of the values there is
1024), so the loop `while(deg >= 180){ deg -= 360; }` makes no progress and `normalize` does not
return on this input, whatever number of iterations is allowed. -/
theorem Posture_normalize_binary32 :
    (10000000000 : Binary32) = Binary32.finite (10000000000 * 2 ^ 149) ∧
    (10000000000 : Binary32) - 360 = 10000000000 ∧
    ¬ ∃ fuel r, Posture.normalize fuel (10000000000 : Binary32) = some r := by
  refine ⟨by decide, by decide, ?_⟩
  rintro ⟨fuel, r, h⟩
  simp [Posture.normalize, loop1_binary32] at h

namespace Binary32

theorem excessBits_le (fuel a k : Nat) (h : a / 2 ^ k < 2 ^ 24) : excessBits fuel a ≤ k := by
  induction fuel generalizing a k with
  | zero => simp [excessBits]
  | succ n ih =>
    simp only [excessBits]
    split
    · exact Nat.zero_le _
    · rename_i ha
      cases k with
      | zero => simp at h; omega
      | succ k =>
        have : a / 2 / 2 ^ k < 2 ^ 24 := by
          rw [Nat.div_div_eq_div_mul, ← Nat.pow_succ']
          exact h
        have := ih (a / 2) k this
        omega

theorem excessBits_div (fuel a : Nat) (h : a < 2 ^ (24 + fuel)) :
    a / 2 ^ excessBits fuel a < 2 ^ 24 := by
  induction fuel generalizing a with
  | zero => simpa [excessBits] using h
  | succ n ih =>
    simp only [excessBits]
    split
    · rename_i ha
      simpa using ha
    · have h2 : a / 2 < 2 ^ (24 + n) := by
        rw [Nat.div_lt_iff_lt_mul (by norm_num)]
        calc a < 2 ^ (24 + (n + 1)) := h
          _ = 2 ^ (24 + n) * 2 := by rw [← Nat.add_assoc, Nat.pow_succ]
      have := ih (a / 2) h2
      rw [Nat.pow_succ', ← Nat.div_div_eq_div_mul]
      exact this

theorem roundMagnitude_of_dvd (b k : Nat) (h1 : 2 ^ k ∣ b) (h2 : b / 2 ^ k < 2 ^ 24) :
    roundMagnitude b = b := by
  have hj := excessBits_le 300 b k h2
  unfold roundMagnitude
  simp only
  split
  · rfl
  · rename_i hne
    have hd : 2 ^ excessBits 300 b ∣ b := Nat.dvd_trans (Nat.pow_dvd_pow 2 hj) h1
    have hm : b % 2 ^ excessBits 300 b = 0 := Nat.mod_eq_zero_of_dvd hd
    have hpos : 0 < 2 ^ (excessBits 300 b - 1) := Nat.pow_pos (by norm_num)
    have hc : ¬ (b % 2 ^ excessBits 300 b > 2 ^ (excessBits 300 b - 1) ∨
        (b % 2 ^ excessBits 300 b = 2 ^ (excessBits 300 b - 1) ∧
          b / 2 ^ excessBits 300 b % 2 = 1)) := by
      rw [hm]
      omega
    rw [if_neg hc]
    exact Nat.div_mul_cancel hd

theorem dvd_of_roundMagnitude (a : Nat) (h : roundMagnitude a = a) :
    2 ^ excessBits 300 a ∣ a := by
  unfold roundMagnitude at h
  simp only at h
  split at h
  · rename_i h0
    rw [h0]
    simp
  · exact ⟨_, by rw [Nat.mul_comm]; exact h.symm⟩

theorem roundMagnitude_of_round (n : Int) (h : nearest n = finite n) :
    roundMagnitude n.natAbs = n.natAbs ∧ roundMagnitude n.natAbs < 2 ^ 128 * 2 ^ 149 := by
  unfold nearest at h
  simp only at h
  split at h
  · cases h
  · rename_i hlt
    simp only [finite.injEq] at h
    refine ⟨?_, by omega⟩
    split at h <;> omega

theorem round_of_roundMagnitude (n : Int) (h1 : roundMagnitude n.natAbs = n.natAbs)
    (h2 : n.natAbs < 2 ^ 128 * 2 ^ 149) : nearest n = finite n := by
  unfold nearest
  simp only
  rw [h1, if_neg (by omega)]
  congr 1
  split <;> omega



theorem round_step (n c : Int) (hn : nearest n = finite n) (hc : (2 ^ 152 : Int) ∣ c)
    (hb : n.natAbs < 2 ^ 27 * 2 ^ 149) (hle : (n - c).natAbs ≤ n.natAbs) :
    nearest (n - c) = finite (n - c) := by
  obtain ⟨h1, -⟩ := roundMagnitude_of_round n hn
  have hd := dvd_of_roundMagnitude _ h1
  have hq : n.natAbs / 2 ^ excessBits 300 n.natAbs < 2 ^ 24 :=
    excessBits_div 300 _ (by omega)
  have hk : excessBits 300 n.natAbs ≤ 152 :=
    excessBits_le 300 _ 152 (by
      rw [Nat.div_lt_iff_lt_mul (Nat.pow_pos (by norm_num))]
      omega)
  have hd' : 2 ^ excessBits 300 n.natAbs ∣ (n - c).natAbs := by
    have e1 : ((2 ^ excessBits 300 n.natAbs : Nat) : Int) ∣ n := Int.natCast_dvd.2 hd
    have e2 : ((2 ^ excessBits 300 n.natAbs : Nat) : Int) ∣ c := by
      refine Dvd.dvd.trans ?_ hc
      have := Nat.pow_dvd_pow 2 hk
      exact_mod_cast Int.natCast_dvd_natCast.2 this
    exact Int.natCast_dvd.1 (Dvd.dvd.sub e1 e2)
  have hq' : (n - c).natAbs / 2 ^ excessBits 300 n.natAbs < 2 ^ 24 :=
    lt_of_le_of_lt (Nat.div_le_div_right hle) hq
  exact round_of_roundMagnitude _ (roundMagnitude_of_dvd _ _ hd' hq') (by omega)

theorem const180 : (180 : Binary32) = finite (180 * 2 ^ 149) := by decide

theorem const360 : (360 : Binary32) = finite (360 * 2 ^ 149) := by decide

theorem finite_sub (a b : Int) : (finite a : Binary32) - finite b = nearest (a - b) := by
  show nearest (a + -b) = _
  rw [Int.sub_eq_add_neg]

theorem finite_add (a b : Int) : (finite a : Binary32) + finite b = nearest (a + b) := rfl

theorem finite_le (a b : Int) : (finite a : Binary32) ≤ finite b ↔ a ≤ b := by
  show le (finite a) (finite b) = true ↔ _
  simp [le]

theorem finite_lt (a b : Int) : (finite a : Binary32) < finite b ↔ a < b := by
  show lt (finite a) (finite b) = true ↔ _
  simp [lt]

theorem neg_finite (a : Int) : - (finite a : Binary32) = finite (-a) := rfl

theorem dvd360 : (2 ^ 152 : Int) ∣ 360 * 2 ^ 149 := ⟨45, by norm_num⟩

end Binary32

open Binary32 in
theorem loop1_binary32_step (fuel : Nat) (n : Int) :
    Posture.normalize.loop1 (fuel + 1) (finite n) =
      if 180 * 2 ^ 149 ≤ n then Posture.normalize.loop1 fuel (nearest (n - 360 * 2 ^ 149))
      else some (finite n) := by
  rw [Posture.normalize.loop1]
  simp only [ge_iff_le, const180, const360, finite_le, finite_sub]

open Binary32 in
theorem loop2_binary32_step (fuel : Nat) (n : Int) :
    Posture.normalize.loop2 (fuel + 1) (finite n) =
      if n < -(180 * 2 ^ 149) then Posture.normalize.loop2 fuel (nearest (n + 360 * 2 ^ 149))
      else some (finite n) := by
  rw [Posture.normalize.loop2]
  simp only [const180, const360, neg_finite, finite_lt, finite_add]

open Binary32 in
theorem loop1_binary32_spec (m : Nat) : ∀ (fuel : Nat) (n : Int), nearest n = finite n →
    n.natAbs < 2 ^ 27 * 2 ^ 149 → n < 180 * 2 ^ 149 + m * (360 * 2 ^ 149) → m < fuel →
    ∃ r : Int, Posture.normalize.loop1 fuel (finite n) = some (finite r) ∧
      nearest r = finite r ∧ r.natAbs < 2 ^ 27 * 2 ^ 149 ∧ r < 180 * 2 ^ 149 ∧
      (n < 180 * 2 ^ 149 → r = n) ∧ (180 * 2 ^ 149 ≤ n → -(180 * 2 ^ 149) ≤ r) ∧
      ∃ k : Int, r = n - k * (360 * 2 ^ 149) := by
  induction m with
  | zero =>
    intro fuel n hn hb hlt hf
    obtain ⟨f, rfl⟩ := Nat.exists_eq_succ_of_ne_zero (Nat.pos_iff_ne_zero.1 hf)
    have hlt' : n < 180 * 2 ^ 149 := by simpa using hlt
    refine ⟨n, ?_, hn, hb, hlt', fun _ => rfl, fun h => by omega, 0, by simp⟩
    rw [loop1_binary32_step, if_neg (by omega)]
  | succ m ih =>
    intro fuel n hn hb hlt hf
    have hpos : fuel ≠ 0 := by omega
    obtain ⟨f, rfl⟩ := Nat.exists_eq_succ_of_ne_zero hpos
    by_cases hge : 180 * 2 ^ 149 ≤ n
    · have hle : (n - 360 * 2 ^ 149).natAbs ≤ n.natAbs := by omega
      have hs := round_step n (360 * 2 ^ 149) hn dvd360 hb hle
      obtain ⟨r, h1, h2, h3, h4, h5, h6, k, hk⟩ := ih f (n - 360 * 2 ^ 149) hs (by omega)
        (by push_cast at hlt ⊢; omega) (by omega)
      refine ⟨r, ?_, h2, h3, h4, fun h => by omega, fun _ => ?_, k + 1, ?_⟩
      · rw [loop1_binary32_step, if_pos hge, hs, h1]
      · by_cases hc : n - 360 * 2 ^ 149 < 180 * 2 ^ 149
        · rw [h5 hc]; omega
        · exact h6 (by omega)
      · rw [hk]; ring
    · refine ⟨n, ?_, hn, hb, by omega, fun _ => rfl, fun h => by omega, 0, by simp⟩
      rw [loop1_binary32_step, if_neg hge]

open Binary32 in
theorem loop2_binary32_spec (m : Nat) : ∀ (fuel : Nat) (n : Int), nearest n = finite n →
    n.natAbs < 2 ^ 27 * 2 ^ 149 → -(180 * 2 ^ 149) - m * (360 * 2 ^ 149) ≤ n → m < fuel →
    ∃ r : Int, Posture.normalize.loop2 fuel (finite n) = some (finite r) ∧
      nearest r = finite r ∧ r.natAbs < 2 ^ 27 * 2 ^ 149 ∧ -(180 * 2 ^ 149) ≤ r ∧
      (-(180 * 2 ^ 149) ≤ n → r = n) ∧ (n < -(180 * 2 ^ 149) → r < 180 * 2 ^ 149) ∧
      ∃ k : Int, r = n - k * (360 * 2 ^ 149) := by
  induction m with
  | zero =>
    intro fuel n hn hb hlt hf
    obtain ⟨f, rfl⟩ := Nat.exists_eq_succ_of_ne_zero (Nat.pos_iff_ne_zero.1 hf)
    have hlt' : -(180 * 2 ^ 149) ≤ n := by simpa using hlt
    refine ⟨n, ?_, hn, hb, hlt', fun _ => rfl, fun h => by omega, 0, by simp⟩
    rw [loop2_binary32_step, if_neg (by omega)]
  | succ m ih =>
    intro fuel n hn hb hlt hf
    have hpos : fuel ≠ 0 := by omega
    obtain ⟨f, rfl⟩ := Nat.exists_eq_succ_of_ne_zero hpos
    by_cases hge : n < -(180 * 2 ^ 149)
    · have hle : (n - -(360 * 2 ^ 149)).natAbs ≤ n.natAbs := by omega
      have hs := round_step n (-(360 * 2 ^ 149)) hn ((Int.dvd_neg).2 dvd360) hb hle
      rw [sub_neg_eq_add] at hs
      obtain ⟨r, h1, h2, h3, h4, h5, h6, k, hk⟩ := ih f (n + 360 * 2 ^ 149) hs (by omega)
        (by push_cast at hlt ⊢; omega) (by omega)
      refine ⟨r, ?_, h2, h3, h4, fun h => by omega, fun _ => ?_, k - 1, ?_⟩
      · rw [loop2_binary32_step, if_pos hge, hs, h1]
      · by_cases hc : -(180 * 2 ^ 149) ≤ n + 360 * 2 ^ 149
        · rw [h5 hc]; omega
        · exact h6 (by omega)
      · rw [hk]; ring
    · refine ⟨n, ?_, hn, hb, by omega, fun _ => rfl, fun h => by omega, 0, by simp⟩
      rw [loop2_binary32_step, if_neg hge]

open Binary32 in
theorem normalize_binary32_spec (fuel : Nat) (n : Int) (hn : nearest n = finite n)
    (hb : n.natAbs < 2 ^ 27 * 2 ^ 149) (hf : 2 ^ 27 < fuel) :
    ∃ r : Int, Posture.normalize fuel (finite n) = some (finite r) ∧ nearest r = finite r ∧
      -(180 * 2 ^ 149) ≤ r ∧ r < 180 * 2 ^ 149 ∧ ∃ k : Int, r = n - k * (360 * 2 ^ 149) := by
  obtain ⟨d, a1, a2, a3, a4, a5, a6, k1, hk1⟩ := loop1_binary32_spec (2 ^ 27) fuel n hn hb
    (by push_cast; omega) hf
  obtain ⟨r, b1, b2, b3, b4, b5, b6, k2, hk2⟩ := loop2_binary32_spec (2 ^ 27) fuel d a2 a3
    (by push_cast; omega) hf
  refine ⟨r, by simp [Posture.normalize, a1, b1], b2, b4, ?_, k1 + k2, ?_⟩
  · by_cases hc : -(180 * 2 ^ 149) ≤ d
    · rw [b5 hc]; exact a4
    · exact b6 (by omega)
  · rw [hk2, hk1]; ring

theorem ctor_binary32_spec (fuel : Nat) (a b c : Int) (ha : Binary32.Below27 a)
    (hb : Binary32.Below27 b) (hc : Binary32.Below27 c) (hf : 2 ^ 27 < fuel) :
    ∃ r p y : Int,
      Posture.ctor fuel (Binary32.finite a) (Binary32.finite b) (Binary32.finite c) =
        some { roll_deg := Binary32.finite r, pitch_deg := Binary32.finite p,
               yaw_deg := Binary32.finite y } ∧
      Binary32.Normalizes a r ∧ Binary32.Normalizes b p ∧ Binary32.Normalizes c y := by
  obtain ⟨r, h1, -, r1, r2, r3⟩ := normalize_binary32_spec fuel a ha.1 ha.2 hf
  obtain ⟨p, h2, -, p1, p2, p3⟩ := normalize_binary32_spec fuel b hb.1 hb.2 hf
  obtain ⟨y, h3, -, y1, y2, y3⟩ := normalize_binary32_spec fuel c hc.1 hc.2 hf
  exact ⟨r, p, y, by simp [Posture.ctor, h1, h2, h3], ⟨r1, r2, r3⟩, ⟨p1, p2, p3⟩, ⟨y1, y2, y3⟩⟩

/-- Claim C19, as amended: in exact arithmetic `normalize` ends on every input, and so do the
constructor and `operator-` (with enough fuel they return); every `Posture` they return holds
`roll_deg`, `pitch_deg` and `yaw_deg` in the interval from -180 (included) to 180 (excluded),
each differing from the corresponding constructor argument by an integer multiple of 360.  In
binary32 arithmetic the same holds for every finite argument of magnitude below 2^27, where
each step `deg -= 360` and `deg += 360` is computed without rounding: `normalize` and the
constructor return, and so does `operator-` when the three differences it passes on are such
values. -/
theorem Posture_normalized {F : Type} [LinearOrderedField F] [FloorRing F] :
    (∀ deg : F, ∃ N, ∀ fuel, N ≤ fuel → ∃ r, Posture.normalize fuel deg = some r) ∧
    (∀ r p y : F,
      (∃ N, ∀ fuel, N ≤ fuel → ∃ post, Posture.ctor fuel r p y = some post) ∧
      ∀ fuel post, Posture.ctor fuel r p y = some post →
        (-180 ≤ post.roll_deg ∧ post.roll_deg < 180 ∧ ∃ k : ℤ, post.roll_deg = r - 360 * k) ∧
        (-180 ≤ post.pitch_deg ∧ post.pitch_deg < 180 ∧
          ∃ k : ℤ, post.pitch_deg = p - 360 * k) ∧
        (-180 ≤ post.yaw_deg ∧ post.yaw_deg < 180 ∧ ∃ k : ℤ, post.yaw_deg = y - 360 * k)) ∧
    (∀ a b : Posture F,
      (∃ N, ∀ fuel, N ≤ fuel → ∃ post, Posture.sub fuel a b = some post) ∧
      ∀ fuel post, Posture.sub fuel a b = some post →
        (-180 ≤ post.roll_deg ∧ post.roll_deg < 180 ∧
          ∃ k : ℤ, post.roll_deg = a.roll_deg - b.roll_deg - 360 * k) ∧
        (-180 ≤ post.pitch_deg ∧ post.pitch_deg < 180 ∧
          ∃ k : ℤ, post.pitch_deg = a.pitch_deg - b.pitch_deg - 360 * k) ∧
        (-180 ≤ post.yaw_deg ∧ post.yaw_deg < 180 ∧
          ∃ k : ℤ, post.yaw_deg = a.yaw_deg - b.yaw_deg - 360 * k)) ∧
    (∀ (n : Int) (fuel : Nat), Binary32.Below27 n → 2 ^ 27 < fuel →
      ∃ r : Int, Posture.normalize fuel (Binary32.finite n) = some (Binary32.finite r) ∧
        Binary32.Normalizes n r) ∧
    (∀ (a b c : Int) (fuel : Nat), Binary32.Below27 a → Binary32.Below27 b →
      Binary32.Below27 c → 2 ^ 27 < fuel →
      ∃ r p y : Int,
        Posture.ctor fuel (Binary32.finite a) (Binary32.finite b) (Binary32.finite c) =
          some { roll_deg := Binary32.finite r, pitch_deg := Binary32.finite p,
                 yaw_deg := Binary32.finite y } ∧
        Binary32.Normalizes a r ∧ Binary32.Normalizes b p ∧ Binary32.Normalizes c y) ∧
    (∀ (s t : Posture Binary32) (a b c : Int) (fuel : Nat),
      s.roll_deg - t.roll_deg = Binary32.finite a →
      s.pitch_deg - t.pitch_deg = Binary32.finite b →
      s.yaw_deg - t.yaw_deg = Binary32.finite c →
      Binary32.Below27 a → Binary32.Below27 b → Binary32.Below27 c → 2 ^ 27 < fuel →
      ∃ r p y : Int,
        Posture.sub fuel s t =
          some { roll_deg := Binary32.finite r, pitch_deg := Binary32.finite p,
                 yaw_deg := Binary32.finite y } ∧
        Binary32.Normalizes a r ∧ Binary32.Normalizes b p ∧ Binary32.Normalizes c y) := by
  refine ⟨Posture.normalize_terminates,
    fun r p y => ⟨Posture.ctor_terminates r p y,
      fun fuel post h => Posture.ctor_spec fuel r p y post h⟩,
    fun _ _ => ⟨Posture.ctor_terminates _ _ _,
      fun fuel post h => Posture.ctor_spec fuel _ _ _ post h⟩, ?_, ?_, ?_⟩
  · intro n fuel hn hf
    obtain ⟨r, h1, -, r1, r2, r3⟩ := normalize_binary32_spec fuel n hn.1 hn.2 hf
    exact ⟨r, h1, r1, r2, r3⟩
  · intro a b c fuel ha hb hc hf
    exact ctor_binary32_spec fuel a b c ha hb hc hf
  · intro s t a b c fuel e1 e2 e3 ha hb hc hf
    unfold Posture.sub
    rw [e1, e2, e3]
    exact ctor_binary32_spec fuel a b c ha hb hc hf

theorem Posture_normalized_witness :
    ∃ r : Int, Posture.normalize (2 ^ 27 + 1) (Binary32.finite (540 * 2 ^ 149)) =
        some (Binary32.finite r) ∧ Binary32.Normalizes (540 * 2 ^ 149) r :=
  (Posture_normalized (F := ℚ)).2.2.2.1 (540 * 2 ^ 149) (2 ^ 27 + 1)
    ⟨by decide, by decide⟩ (by decide)
end TC70
